import Mathlib

/-!
# NFT simulation operations

A shallow embedding of `x/nft/simulation/operations.go`: the entity samplers
(`getRandomDenom`, `getRandomNFTFromOwner`, `getRandomNFTFromOwnerAndCreator`),
the four operation builders (`SimulateMsgMintNFT`, `SimulateMsgEditNFT`,
`SimulateMsgTransferNFT`, `SimulateMsgBurnNFT`) and `WeightedOperations`.

Conventions of the embedding.

* A Go `error` is the text `err.Error()`; a `(value, error)` result whose value
  is only read when the error is nil is an `Except String value`.
* A run-time panic of the Go code (index out of range, `Intn` with a
  non-positive bound, a method call on a nil interface) is the result `none`.
* The `sdk.Context` argument is folded into the keepers: a `Keeper` value is the
  query surface of the ledger at the context of the step.
* What is imported from other packages is a field of `Externals` (library
  functions and package constants), `Keeper`, `AccountKeeper`, `BankKeeper` or
  `BaseApp`, and the functions below are parametric in them. Three library
  functions are written out because their behaviour decides a path of the
  builders: `Intn` of the random source, `simtypes.RandomAcc`, which panics on
  an empty account list, and `simtypes.FindAccount`.
-/

namespace NFTSimulation

/-! ## Data model -/

/-- Account address (`sdk.AccAddress`): a byte slice. The nil slice and the empty slice
are both the empty list. -/
structure AccAddress where
  bytes : List Nat
deriving DecidableEq, Repr

/-- The nil address. -/
def AccAddress.nil : AccAddress := ⟨[]⟩

/-- Method `Empty` of `sdk.AccAddress`: true for a nil or zero-length address. -/
def AccAddress.Empty (aa : AccAddress) : Bool := aa.bytes.isEmpty

/-- Random source (`*rand.Rand`): an arbitrary infinite sequence of raw values together with
the number of draws made so far. -/
structure Rand where
  stream : Nat → Nat
  pos : Nat

/-- The source after one draw. -/
def Rand.next (r : Rand) : Rand := { r with pos := r.pos + 1 }

/-- The value the next draw bounded by `n` yields. -/
def Rand.draw (r : Rand) (n : Nat) : Nat := r.stream r.pos % n

/-- Method `Intn` of `rand.Rand`: a value in `[0, n)`, advancing the source; panics when
`n` is not positive. -/
def Rand.Intn (r : Rand) (n : Nat) : Option (Nat × Rand) :=
  if n = 0 then none else some (r.draw n, r.next)

/-- ID Collection (`types.IDCollection`): the token ids held in one denomination. -/
structure IDCollection where
  DenomId : String
  TokenIds : List String
deriving DecidableEq, Repr

/-- Owner Record (`types.Owner`): an address with its ID Collections. -/
structure Owner where
  Address : String
  IDCollections : List IDCollection
deriving DecidableEq, Repr

/-- Denomination (`types.Denom`), with the two fields the simulation reads. -/
structure Denom where
  Id : String
  Creator : String
deriving DecidableEq, Repr

/-- Read-only query surface of the ledger (`keeper.Keeper`) at the context of the step.
`GetOwners` keeps both results because its error is discarded by the caller. -/
structure Keeper where
  GetDenom : String → Except String Denom
  GetOwner : AccAddress → String → Except String Owner
  GetOwners : List Owner × Option String

/-- Signing key of a simulation account. -/
abbrev PrivKey := Nat

/-- Known simulation account (`simtypes.Account`). -/
structure Account where
  Address : AccAddress
  PrivKey : PrivKey
deriving DecidableEq, Repr

/-- On-ledger account handle (`authtypes.AccountI`), as read through its getters. -/
structure AccountI where
  GetAddress : AccAddress
  GetAccountNumber : Nat
  GetSequence : Nat
deriving DecidableEq, Repr

/-- Funds (`sdk.Coins`). -/
abbrev Coins := List (String × Nat)

/-- Account service (`types.AccountKeeper`); `none` is the nil interface value. -/
structure AccountKeeper where
  GetAccount : AccAddress → Option AccountI

/-- Balance service (`types.BankKeeper`). -/
structure BankKeeper where
  SpendableCoins : AccAddress → Coins

/-- Modelled from the spec: the operation kinds of the outcome record. The event-type
constants (`types.EventTypeMintNFT`, ...) and the `Type()` method of the four messages are
declared in package `types`, outside this file; the spec names the four kinds mint, edit,
transfer and burn. -/
inductive OperationKind where
  | mint
  | edit
  | transfer
  | burn
deriving DecidableEq, Repr

/-- Constant `types.EventTypeMintNFT`. -/
def EventTypeMintNFT : OperationKind := OperationKind.mint

/-- Constant `types.EventTypeEditNFT`. -/
def EventTypeEditNFT : OperationKind := OperationKind.edit

/-- Constant `types.EventTypeTransfer`. -/
def EventTypeTransfer : OperationKind := OperationKind.transfer

/-- Constant `types.EventTypeBurnNFT`. -/
def EventTypeBurnNFT : OperationKind := OperationKind.burn

/-- Operation Request: the four messages, each the record of the arguments its
constructor (`types.NewMsg...`) receives, in the order of the call. -/
inductive Msg where
  | NewMsgTransferNFT (tokenID denomID sender recipient : String)
  | NewMsgEditNFT (tokenID denomID tokenName tokenURI tokenData sender : String)
  | NewMsgMintNFT (tokenID denomID tokenName tokenURI tokenData sender recipient : String)
  | NewMsgBurnNFT (sender tokenID denomID : String)
deriving DecidableEq, Repr

/-- Field `Sender` of a request. -/
def Msg.Sender : Msg → String
  | .NewMsgTransferNFT _ _ sender _ => sender
  | .NewMsgEditNFT _ _ _ _ _ sender => sender
  | .NewMsgMintNFT _ _ _ _ _ sender _ => sender
  | .NewMsgBurnNFT sender _ _ => sender

/-- Field `Recipient` of a request, for the two kinds that have one. -/
def Msg.Recipient : Msg → Option String
  | .NewMsgTransferNFT _ _ _ recipient => some recipient
  | .NewMsgMintNFT _ _ _ _ _ _ recipient => some recipient
  | _ => none

/-- Field `DenomId` of a request. -/
def Msg.DenomId : Msg → String
  | .NewMsgTransferNFT _ denomID _ _ => denomID
  | .NewMsgEditNFT _ denomID _ _ _ _ => denomID
  | .NewMsgMintNFT _ denomID _ _ _ _ _ => denomID
  | .NewMsgBurnNFT _ _ denomID => denomID

/-- Field `Id` (the token id) of a request. -/
def Msg.Id : Msg → String
  | .NewMsgTransferNFT tokenID _ _ _ => tokenID
  | .NewMsgEditNFT tokenID _ _ _ _ _ => tokenID
  | .NewMsgMintNFT tokenID _ _ _ _ _ _ => tokenID
  | .NewMsgBurnNFT _ tokenID _ => tokenID

/-- Method `Type` of a request: its operation kind. -/
def Msg.Type : Msg → OperationKind
  | .NewMsgTransferNFT .. => OperationKind.transfer
  | .NewMsgEditNFT .. => OperationKind.edit
  | .NewMsgMintNFT .. => OperationKind.mint
  | .NewMsgBurnNFT .. => OperationKind.burn

/-- Signed transaction, as produced by `helpers.GenTx`. -/
structure Tx where
  bytes : List Nat
deriving DecidableEq, Repr

/-- The application under test (`*baseapp.BaseApp`): `Deliver` answers a transaction with
its rejection error, or `none` when it is accepted. -/
structure BaseApp where
  Deliver : Tx → Option String

/-- Outcome record (`simtypes.OperationMsg`), kept as the constructor call that made it. -/
inductive OperationMsg where
  | NoOpMsg (route : String) (msgType : OperationKind) (comment : String)
  | NewOperationMsg (msg : Msg) (ok : Bool) (comment : String)
deriving DecidableEq, Repr

/-- Field `OK` of the outcome record (accepted); `NoOpMsg` sets it to false. -/
def OperationMsg.OK : OperationMsg → Bool
  | .NoOpMsg _ _ _ => false
  | .NewOperationMsg _ ok _ => ok

/-- Field `Comment` of the outcome record (the reason string). -/
def OperationMsg.Comment : OperationMsg → String
  | .NoOpMsg _ _ comment => comment
  | .NewOperationMsg _ _ comment => comment

/-- Field `Name` of the outcome record (the operation kind). -/
def OperationMsg.Name : OperationMsg → OperationKind
  | .NoOpMsg _ msgType _ => msgType
  | .NewOperationMsg msg _ _ => msg.Type

/-- Functions and constants the file imports from other packages. The random helpers take
the random source and return it advanced. -/
structure Externals where
  kitties : String
  doggos : String
  ModuleName : String
  MinDenomLen : Nat
  MaxDenomLen : Nat
  DefaultGenTxGas : Nat
  AccAddressFromBech32 : String → AccAddress
  AccAddressString : AccAddress → String
  RandStringOfLength : Rand → Nat → String × Rand
  RandnNFTID : Rand → Nat → Nat → String × Rand
  RandomFees : Rand → Coins → Except String Coins × Rand
  GenTx : List Msg → Coins → Nat → String → List Nat → List Nat → PrivKey → Except String Tx

/-- Library function `simtypes.RandomAcc`: draws an index bounded by the number of known
accounts and returns the account at it together with the index. On an empty list the draw
has bound zero and panics. -/
def RandomAcc (r : Rand) (accs : List Account) : Option (Account × Nat × Rand) :=
  match r.Intn accs.length with
  | none => none
  | some (idx, r) =>
    match accs[idx]? with
    | none => none
    | some acc => some (acc, idx, r)

/-- Library function `simtypes.FindAccount`: the first known account with the address. -/
def FindAccount (accs : List Account) (address : AccAddress) : Option Account :=
  accs.find? (fun acc => acc.Address == address)

/-- Go `fmt.Errorf("account %s not found", sender)`. -/
def accountNotFound (sender : String) : String :=
  "account " ++ sender ++ " not found"

/-- What one simulation step leaves behind: the returned outcome record and error (the
returned future operations are nil on every path), the request the step constructed (if
any), the transactions it handed to `app.Deliver`, and the random source as advanced. -/
structure StepResult where
  opMsg : OperationMsg
  err : Option String
  built : Option Msg
  delivered : List Tx
  rand : Rand

/-- One simulation step (`simtypes.Operation`); `none` is a panic. -/
abbrev Operation := Rand → BaseApp → List Account → String → Option StepResult

/-! ## Entity sampler -/

/-- Source function `getRandomDenom`. -/
def getRandomDenom (ext : Externals) (_k : Keeper) (r : Rand) : Option (String × Rand) :=
  let denoms := [ext.kitties, ext.doggos]
  match r.Intn denoms.length with
  | none => none
  | some (i, r) =>
    match denoms[i]? with
    | none => none
    | some d => some (d, r)

/-- Source function `getRandomNFTFromOwner`: the result is (address, denomID, tokenID) and
the advanced random source. -/
def getRandomNFTFromOwner (ext : Externals) (k : Keeper) (r : Rand) :
    Option (AccAddress × String × String × Rand) :=
  let owners := k.GetOwners.1
  let ownersLen := owners.length
  if ownersLen = 0 then some (AccAddress.nil, "", "", r) else
  match r.Intn ownersLen with
  | none => none
  | some (i, r) =>
  match owners[i]? with
  | none => none
  | some owner =>
  let idCollectionsLen := owner.IDCollections.length
  if idCollectionsLen = 0 then some (AccAddress.nil, "", "", r) else
  match r.Intn idCollectionsLen with
  | none => none
  | some (i, r) =>
  match owner.IDCollections[i]? with
  | none => none
  | some idCollection =>
  let denomID := idCollection.DenomId
  let idsLen := idCollection.TokenIds.length
  if idsLen = 0 then some (AccAddress.nil, "", "", r) else
  match r.Intn idsLen with
  | none => none
  | some (i, r) =>
  match idCollection.TokenIds[i]? with
  | none => none
  | some tokenID =>
  let ownerAddress := ext.AccAddressFromBech32 owner.Address
  some (ownerAddress, denomID, tokenID, r)

/-- Source function `getRandomNFTFromOwnerAndCreator`: the result is (address, denomID,
tokenID, err) and the advanced random source. -/
def getRandomNFTFromOwnerAndCreator (ext : Externals) (k : Keeper) (r : Rand) :
    Option (AccAddress × String × String × Option String × Rand) :=
  match getRandomDenom ext k r with
  | none => none
  | some (id, r) =>
  match k.GetDenom id with
  | .error err => some (AccAddress.nil, "", "", some err, r)
  | .ok denom =>
  let creator := ext.AccAddressFromBech32 denom.Creator
  match k.GetOwner creator denom.Id with
  | .error err => some (AccAddress.nil, "", "", some err, r)
  | .ok owner =>
  let idCollectionsLen := owner.IDCollections.length
  if idCollectionsLen = 0 then some (AccAddress.nil, "", "", none, r) else
  match r.Intn idCollectionsLen with
  | none => none
  | some (i, r) =>
  match owner.IDCollections[i]? with
  | none => none
  | some idCollection =>
  let denomID := idCollection.DenomId
  let idsLen := idCollection.TokenIds.length
  if idsLen = 0 then some (AccAddress.nil, "", "", none, r) else
  match r.Intn idsLen with
  | none => none
  | some (i, r) =>
  match idCollection.TokenIds[i]? with
  | none => none
  | some tokenID =>
  let ownerAddress := ext.AccAddressFromBech32 owner.Address
  some (ownerAddress, denomID, tokenID, none, r)

/-! ## Operation builders -/

/-- Source function `SimulateMsgTransferNFT`. -/
def SimulateMsgTransferNFT (ext : Externals) (k : Keeper) (ak : AccountKeeper)
    (bk : BankKeeper) : Operation :=
  fun r app accs chainID =>
  match getRandomNFTFromOwner ext k r with
  | none => none
  | some (ownerAddr, denom, nftID, r) =>
  if ownerAddr.Empty then
    let err := "invalid account"
    some ⟨.NoOpMsg ext.ModuleName EventTypeTransfer err, some err, none, [], r⟩
  else
  match RandomAcc r accs with
  | none => none
  | some (recipientAccount, _, r) =>
  let msg := Msg.NewMsgTransferNFT
    nftID
    denom
    (ext.AccAddressString ownerAddr)
    (ext.AccAddressString recipientAccount.Address)
  let account := ak.GetAccount ownerAddr
  match FindAccount accs ownerAddr with
  | none =>
    let err := accountNotFound msg.Sender
    some ⟨.NoOpMsg ext.ModuleName EventTypeTransfer err, some err, some msg, [], r⟩
  | some ownerAccount =>
  match account with
  | none => none
  | some account =>
  let spendable := bk.SpendableCoins account.GetAddress
  match ext.RandomFees r spendable with
  | (.error err, r) =>
    some ⟨.NoOpMsg ext.ModuleName EventTypeTransfer err, some err, some msg, [], r⟩
  | (.ok fees, r) =>
  match ext.GenTx [msg] fees ext.DefaultGenTxGas chainID
      [account.GetAccountNumber] [account.GetSequence] ownerAccount.PrivKey with
  | .error err =>
    some ⟨.NoOpMsg ext.ModuleName msg.Type "unable to generate mock tx", some err,
      some msg, [], r⟩
  | .ok tx =>
  match app.Deliver tx with
  | some err =>
    some ⟨.NoOpMsg ext.ModuleName EventTypeTransfer err, some err, some msg, [tx], r⟩
  | none => some ⟨.NewOperationMsg msg true "", none, some msg, [tx], r⟩

/-- Source function `SimulateMsgEditNFT`. -/
def SimulateMsgEditNFT (ext : Externals) (k : Keeper) (ak : AccountKeeper)
    (bk : BankKeeper) : Operation :=
  fun r app accs chainID =>
  match getRandomNFTFromOwnerAndCreator ext k r with
  | none => none
  | some (_, _, _, some err, r) =>
    some ⟨.NoOpMsg ext.ModuleName EventTypeEditNFT err, some err, none, [], r⟩
  | some (ownerAddr, denom, nftID, none, r) =>
  if ownerAddr.Empty then
    some ⟨.NoOpMsg ext.ModuleName EventTypeEditNFT "denom creator does not own any NFTs",
      none, none, [], r⟩
  else
  match ext.RandStringOfLength r 45 with
  | (tokenURI, r) =>
  match ext.RandStringOfLength r 10 with
  | (tokenData, r) =>
  let msg := Msg.NewMsgEditNFT
    nftID
    denom
    ""
    tokenURI
    tokenData
    (ext.AccAddressString ownerAddr)
  match ak.GetAccount ownerAddr with
  | none => none
  | some account =>
  let spendable := bk.SpendableCoins account.GetAddress
  match ext.RandomFees r spendable with
  | (.error err, r) =>
    some ⟨.NoOpMsg ext.ModuleName EventTypeEditNFT err, some err, some msg, [], r⟩
  | (.ok fees, r) =>
  match FindAccount accs ownerAddr with
  | none =>
    let err := accountNotFound (ext.AccAddressString ownerAddr)
    some ⟨.NoOpMsg ext.ModuleName EventTypeEditNFT err, some err, some msg, [], r⟩
  | some ownerAccount =>
  match ext.GenTx [msg] fees ext.DefaultGenTxGas chainID
      [account.GetAccountNumber] [account.GetSequence] ownerAccount.PrivKey with
  | .error err =>
    some ⟨.NoOpMsg ext.ModuleName msg.Type "unable to generate mock tx", some err,
      some msg, [], r⟩
  | .ok tx =>
  match app.Deliver tx with
  | some err =>
    some ⟨.NoOpMsg ext.ModuleName EventTypeEditNFT err, some err, some msg, [tx], r⟩
  | none => some ⟨.NewOperationMsg msg true "", none, some msg, [tx], r⟩

/-- Source function `SimulateMsgMintNFT`. -/
def SimulateMsgMintNFT (ext : Externals) (k : Keeper) (ak : AccountKeeper)
    (bk : BankKeeper) : Operation :=
  fun r app accs chainID =>
  match getRandomDenom ext k r with
  | none => none
  | some (id, r) =>
  match k.GetDenom id with
  | .error err =>
    some ⟨.NoOpMsg ext.ModuleName EventTypeMintNFT err, some err, none, [], r⟩
  | .ok denom =>
  let randomSenderAddress := ext.AccAddressFromBech32 denom.Creator
  match RandomAcc r accs with
  | none => none
  | some (randomRecipient, _, r) =>
  match ext.RandnNFTID r ext.MinDenomLen ext.MaxDenomLen with
  | (nftID, r) =>
  match ext.RandStringOfLength r 45 with
  | (tokenURI, r) =>
  match ext.RandStringOfLength r 10 with
  | (tokenData, r) =>
  let msg := Msg.NewMsgMintNFT
    nftID
    denom.Id
    ""
    tokenURI
    tokenData
    (ext.AccAddressString randomSenderAddress)
    (ext.AccAddressString randomRecipient.Address)
  match ak.GetAccount randomSenderAddress with
  | none => none
  | some account =>
  let spendable := bk.SpendableCoins account.GetAddress
  match ext.RandomFees r spendable with
  | (.error err, r) =>
    some ⟨.NoOpMsg ext.ModuleName EventTypeMintNFT err, some err, some msg, [], r⟩
  | (.ok fees, r) =>
  match FindAccount accs randomSenderAddress with
  | none =>
    let err := accountNotFound msg.Sender
    some ⟨.NoOpMsg ext.ModuleName EventTypeMintNFT err, some err, some msg, [], r⟩
  | some simAccount =>
  match ext.GenTx [msg] fees ext.DefaultGenTxGas chainID
      [account.GetAccountNumber] [account.GetSequence] simAccount.PrivKey with
  | .error err =>
    some ⟨.NoOpMsg ext.ModuleName msg.Type "unable to generate mock tx", some err,
      some msg, [], r⟩
  | .ok tx =>
  match app.Deliver tx with
  | some err =>
    some ⟨.NoOpMsg ext.ModuleName EventTypeMintNFT err, some err, some msg, [tx], r⟩
  | none => some ⟨.NewOperationMsg msg true "", none, some msg, [tx], r⟩

/-- Source function `SimulateMsgBurnNFT`. -/
def SimulateMsgBurnNFT (ext : Externals) (k : Keeper) (ak : AccountKeeper)
    (bk : BankKeeper) : Operation :=
  fun r app accs chainID =>
  match getRandomNFTFromOwnerAndCreator ext k r with
  | none => none
  | some (_, _, _, some err, r) =>
    some ⟨.NoOpMsg ext.ModuleName EventTypeBurnNFT err, some err, none, [], r⟩
  | some (ownerAddr, denom, nftID, none, r) =>
  if ownerAddr.Empty then
    some ⟨.NoOpMsg ext.ModuleName EventTypeBurnNFT "denom creator does not own any NFTs",
      none, none, [], r⟩
  else
  let msg := Msg.NewMsgBurnNFT (ext.AccAddressString ownerAddr) nftID denom
  match ak.GetAccount ownerAddr with
  | none => none
  | some account =>
  let spendable := bk.SpendableCoins account.GetAddress
  match ext.RandomFees r spendable with
  | (.error err, r) =>
    some ⟨.NoOpMsg ext.ModuleName EventTypeBurnNFT err, some err, some msg, [], r⟩
  | (.ok fees, r) =>
  match FindAccount accs ownerAddr with
  | none =>
    let err := accountNotFound msg.Sender
    some ⟨.NoOpMsg ext.ModuleName EventTypeBurnNFT err, some err, some msg, [], r⟩
  | some simAccount =>
  match ext.GenTx [msg] fees ext.DefaultGenTxGas chainID
      [account.GetAccountNumber] [account.GetSequence] simAccount.PrivKey with
  | .error err =>
    some ⟨.NoOpMsg ext.ModuleName msg.Type "unable to generate mock tx", some err,
      some msg, [], r⟩
  | .ok tx =>
  match app.Deliver tx with
  | some err =>
    some ⟨.NoOpMsg ext.ModuleName EventTypeEditNFT err, some err, some msg, [tx], r⟩
  | none => some ⟨.NewOperationMsg msg true "", none, some msg, [tx], r⟩

/-! ## Weighted dispatcher -/

/-- Simulation operation weight keys. -/
def OpWeightMsgMintNFT : String := "op_weight_msg_mint_nft"

/-- Key of the edit weight. -/
def OpWeightMsgEditNFT : String := "op_weight_msg_edit_nft_tokenData"

/-- Key of the transfer weight. -/
def OpWeightMsgTransferNFT : String := "op_weight_msg_transfer_nft"

/-- Key of the burn weight. -/
def OpWeightMsgBurnNFT : String := "op_weight_msg_transfer_burn_nft"

/-- Configuration (`simtypes.AppParams`): for each key, the integer its entry decodes to,
or `none` when the key has no entry. -/
abbrev AppParams := String → Option Int

/-- Library method `AppParams.GetOrGenerate` on an integer variable: the value the variable
holds afterwards. The configured value is stored when the key has one; otherwise the
generator `ps` runs on the variable. -/
def AppParams.GetOrGenerate (sp : AppParams) (key : String) (ptr : Int) (ps : Int → Int) :
    Int :=
  match sp key with
  | some v => v
  | none => ps ptr

/-- One entry of the weight table (`simulation.WeightedOperation`). -/
structure WeightedOperation where
  weight : Int
  op : Operation

/-- Library function `simulation.NewWeightedOperation`. -/
def NewWeightedOperation (weight : Int) (op : Operation) : WeightedOperation :=
  ⟨weight, op⟩

/-- Source function `WeightedOperations`. -/
def WeightedOperations (appParams : AppParams) (ext : Externals) (k : Keeper)
    (ak : AccountKeeper) (bk : BankKeeper) : List WeightedOperation :=
  let weightMint := appParams.GetOrGenerate OpWeightMsgMintNFT 0 (fun _ => 100)
  let weightEdit := appParams.GetOrGenerate OpWeightMsgEditNFT 0 (fun _ => 50)
  let weightTransfer := appParams.GetOrGenerate OpWeightMsgTransferNFT 0 (fun _ => 50)
  let weightBurn := appParams.GetOrGenerate OpWeightMsgBurnNFT 0 (fun _ => 10)
  [ NewWeightedOperation weightMint (SimulateMsgMintNFT ext k ak bk),
    NewWeightedOperation weightEdit (SimulateMsgEditNFT ext k ak bk),
    NewWeightedOperation weightTransfer (SimulateMsgTransferNFT ext k ak bk),
    NewWeightedOperation weightBurn (SimulateMsgBurnNFT ext k ak bk) ]

/-! ## Concrete scenarios

Ledgers, random sources and collaborators at which the statements below are evaluated. -/

/-- Collaborators of the scenarios: an address is spelled by the character codes of its
bytes, fee randomisation charges no fee and signing always succeeds. -/
def scenarioExt : Externals where
  kitties := "kitties"
  doggos := "doggos"
  ModuleName := "nft"
  MinDenomLen := 3
  MaxDenomLen := 64
  DefaultGenTxGas := 1000000
  AccAddressFromBech32 := fun s => ⟨s.toList.map Char.toNat⟩
  AccAddressString := fun a => String.mk (a.bytes.map Char.ofNat)
  RandStringOfLength := fun r n => (String.mk (List.replicate n 'x'), r.next)
  RandnNFTID := fun r _ _ => ("token", r.next)
  RandomFees := fun r _ => (.ok [], r)
  GenTx := fun _ _ _ _ _ _ priv => .ok ⟨[priv]⟩

/-- Random source that yields the listed raw values first and zero ever after. -/
def tapeRand (tape : List Nat) : Rand := ⟨fun i => tape.getD i 0, 0⟩

/-- Owner Record of A holding cat1 in kitties. -/
def recordOfA : Owner := ⟨"A", [⟨"kitties", ["cat1"]⟩]⟩

/-- Ledger of scenario 1: denomination kitties created by A, token cat1 owned by A. -/
def ledgerKitties : Keeper where
  GetDenom := fun id =>
    if id = "kitties" then .ok ⟨"kitties", "A"⟩ else .error "denom not found"
  GetOwner := fun _ _ => .ok recordOfA
  GetOwners := ([recordOfA], none)

/-- Owner Record of A that lists a doggos collection without tokens before the kitties
collection holding cat1. -/
def recordWithEmptyCollection : Owner :=
  ⟨"A", [⟨"doggos", []⟩, ⟨"kitties", ["cat1"]⟩]⟩

/-- Ledger whose answer for A is `recordWithEmptyCollection`. -/
def ledgerWithEmptyCollection : Keeper where
  GetDenom := fun id =>
    if id = "kitties" then .ok ⟨"kitties", "A"⟩ else .error "denom not found"
  GetOwner := fun _ _ => .ok recordWithEmptyCollection
  GetOwners := ([recordWithEmptyCollection], none)

/-- Ledger with nothing in it: no denomination, no owner. -/
def ledgerEmpty : Keeper where
  GetDenom := fun _ => .error "denom not found"
  GetOwner := fun _ _ => .error "owner not found"
  GetOwners := ([], none)

/-- Ledger with the denomination kitties created by A and no token: nobody owns anything. -/
def ledgerNoTokens : Keeper where
  GetDenom := fun id =>
    if id = "kitties" then .ok ⟨"kitties", "A"⟩ else .error "denom not found"
  GetOwner := fun _ _ => .ok ⟨"A", []⟩
  GetOwners := ([], none)

/-- Ledger whose single Owner Record holds no collection. -/
def ledgerOwnerWithoutCollections : Keeper where
  GetDenom := fun _ => .error "denom not found"
  GetOwner := fun _ _ => .error "owner not found"
  GetOwners := ([⟨"A", []⟩], none)

/-- Known account of A. -/
def accountA : Account := ⟨⟨[65]⟩, 1⟩

/-- Known account of B. -/
def accountB : Account := ⟨⟨[66]⟩, 2⟩

/-- Account service in which every address has an on-ledger account. -/
def scenarioAK : AccountKeeper := ⟨fun a => some ⟨a, 0, 0⟩⟩

/-- Account service in which no address has an on-ledger account. -/
def scenarioAKMissing : AccountKeeper := ⟨fun _ => none⟩

/-- Balance service in which every address can spend 100 stake. -/
def scenarioBK : BankKeeper := ⟨fun _ => [("stake", 100)]⟩

/-- Application that accepts every transaction. -/
def acceptingApp : BaseApp := ⟨fun _ => none⟩

/-- Application that rejects every transaction. -/
def rejectingApp : BaseApp := ⟨fun _ => some "rejected"⟩

/-- Collaborators of the scenarios, except that fee randomisation fails. -/
def scenarioExtFeeError : Externals :=
  { scenarioExt with
    RandomFees := fun r _ => (.error "no coins found for random fees", r) }

/-! ## Random source and indexing lemmas -/

theorem Rand.draw_lt (r : Rand) {n : Nat} (h : n ≠ 0) : r.draw n < n :=
  Nat.mod_lt _ (Nat.pos_of_ne_zero h)

theorem Rand.Intn_of_ne_zero (r : Rand) {n : Nat} (h : n ≠ 0) :
    r.Intn n = some (r.draw n, r.next) := by
  simp [Rand.Intn, h]

theorem Rand.Intn_zero (r : Rand) : r.Intn 0 = none := by
  simp [Rand.Intn]

theorem getElem?_draw {α : Type} (r : Rand) (xs : List α) (h : xs.length ≠ 0) :
    ∃ x, xs[r.draw xs.length]? = some x ∧ x ∈ xs := by
  have hlt : r.draw xs.length < xs.length := r.draw_lt h
  refine ⟨xs[r.draw xs.length], ?_, List.getElem_mem hlt⟩
  exact List.getElem?_eq_getElem hlt

theorem length_ne_zero_of_getElem? {α : Type} {xs : List α} {i : Nat} {x : α}
    (h : xs[i]? = some x) : xs.length ≠ 0 := by
  intro h0
  have : xs = [] := List.length_eq_zero.mp h0
  subst this
  simp at h

theorem mem_of_getElem?_eq {α : Type} {xs : List α} {i : Nat} {x : α}
    (h : xs[i]? = some x) : x ∈ xs := by
  obtain ⟨hlt, heq⟩ := List.getElem?_eq_some.mp h
  exact heq ▸ List.getElem_mem hlt

theorem getRandomDenom_eq (ext : Externals) (k : Keeper) (r : Rand) :
    getRandomDenom ext k r
      = some (if r.draw 2 = 0 then ext.kitties else ext.doggos, r.next) := by
  have hlt : r.draw 2 < 2 := r.draw_lt (by decide)
  have hI : r.Intn 2 = some (r.draw 2, r.next) := r.Intn_of_ne_zero (by decide)
  unfold getRandomDenom
  simp only [List.length_cons, List.length_nil, hI]
  rcases Nat.lt_succ_iff_lt_or_eq.mp hlt with h | h
  · have h0 : r.draw 2 = 0 := by omega
    simp [h0]
  · simp [h]

theorem RandomAcc_nil (r : Rand) : RandomAcc r [] = none := by
  simp [RandomAcc, Rand.Intn]

theorem RandomAcc_of_ne_nil (r : Rand) (accs : List Account) (h : accs ≠ []) :
    ∃ acc, RandomAcc r accs = some (acc, r.draw accs.length, r.next) ∧ acc ∈ accs := by
  have hn : accs.length ≠ 0 := by simpa [List.length_eq_zero] using h
  obtain ⟨acc, ha, hm⟩ := getElem?_draw r accs hn
  exact ⟨acc, by simp [RandomAcc, r.Intn_of_ne_zero hn, ha], hm⟩

theorem RandomAcc_some {r r2 : Rand} {accs : List Account} {acc : Account} {idx : Nat}
    (h : RandomAcc r accs = some (acc, idx, r2)) :
    accs ≠ [] ∧ acc ∈ accs ∧ idx = r.draw accs.length ∧ r2 = r.next := by
  by_cases hnil : accs = []
  · subst hnil
    rw [RandomAcc_nil] at h
    simp at h
  · obtain ⟨acc0, h0, hm⟩ := RandomAcc_of_ne_nil r accs hnil
    rw [h0] at h
    simp only [Option.some.injEq, Prod.mk.injEq] at h
    obtain ⟨rfl, rfl, rfl⟩ := h
    exact ⟨hnil, hm, rfl, rfl⟩

/-! ## Evaluation of the samplers, path by path -/

theorem getRandomNFTFromOwner_no_owners (ext : Externals) (k : Keeper) (r : Rand)
    (h : k.GetOwners.1 = []) :
    getRandomNFTFromOwner ext k r = some (AccAddress.nil, "", "", r) := by
  simp [getRandomNFTFromOwner, h]

theorem getRandomNFTFromOwner_no_collections (ext : Externals) (k : Keeper) (r : Rand)
    (owner : Owner) (ho : k.GetOwners.1[r.draw k.GetOwners.1.length]? = some owner)
    (h : owner.IDCollections = []) :
    getRandomNFTFromOwner ext k r = some (AccAddress.nil, "", "", r.next) := by
  have hn := length_ne_zero_of_getElem? ho
  simp [getRandomNFTFromOwner, hn, r.Intn_of_ne_zero hn, ho, h]

theorem getRandomNFTFromOwner_no_tokens (ext : Externals) (k : Keeper) (r : Rand)
    (owner : Owner) (coll : IDCollection)
    (ho : k.GetOwners.1[r.draw k.GetOwners.1.length]? = some owner)
    (hc : owner.IDCollections[r.next.draw owner.IDCollections.length]? = some coll)
    (h : coll.TokenIds = []) :
    getRandomNFTFromOwner ext k r = some (AccAddress.nil, "", "", r.next.next) := by
  have hn := length_ne_zero_of_getElem? ho
  have hm := length_ne_zero_of_getElem? hc
  simp [getRandomNFTFromOwner, hn, r.Intn_of_ne_zero hn, ho, hm,
    r.next.Intn_of_ne_zero hm, hc, h]

theorem getRandomNFTFromOwner_token (ext : Externals) (k : Keeper) (r : Rand)
    (owner : Owner) (coll : IDCollection) (tok : String)
    (ho : k.GetOwners.1[r.draw k.GetOwners.1.length]? = some owner)
    (hc : owner.IDCollections[r.next.draw owner.IDCollections.length]? = some coll)
    (ht : coll.TokenIds[r.next.next.draw coll.TokenIds.length]? = some tok) :
    getRandomNFTFromOwner ext k r
      = some (ext.AccAddressFromBech32 owner.Address, coll.DenomId, tok,
          r.next.next.next) := by
  have hn := length_ne_zero_of_getElem? ho
  have hm := length_ne_zero_of_getElem? hc
  have hl := length_ne_zero_of_getElem? ht
  simp [getRandomNFTFromOwner, hn, r.Intn_of_ne_zero hn, ho, hm,
    r.next.Intn_of_ne_zero hm, hc, hl, r.next.next.Intn_of_ne_zero hl, ht]

theorem getRandomNFTFromOwnerAndCreator_denom_error (ext : Externals) (k : Keeper)
    (r r1 : Rand) (id e : String) (hd : getRandomDenom ext k r = some (id, r1))
    (h : k.GetDenom id = .error e) :
    getRandomNFTFromOwnerAndCreator ext k r = some (AccAddress.nil, "", "", some e, r1) := by
  simp [getRandomNFTFromOwnerAndCreator, hd, h]

theorem getRandomNFTFromOwnerAndCreator_owner_error (ext : Externals) (k : Keeper)
    (r r1 : Rand) (id e : String) (denom : Denom)
    (hd : getRandomDenom ext k r = some (id, r1)) (hg : k.GetDenom id = .ok denom)
    (h : k.GetOwner (ext.AccAddressFromBech32 denom.Creator) denom.Id = .error e) :
    getRandomNFTFromOwnerAndCreator ext k r = some (AccAddress.nil, "", "", some e, r1) := by
  simp [getRandomNFTFromOwnerAndCreator, hd, hg, h]

theorem getRandomNFTFromOwnerAndCreator_no_collections (ext : Externals) (k : Keeper)
    (r r1 : Rand) (id : String) (denom : Denom) (owner : Owner)
    (hd : getRandomDenom ext k r = some (id, r1)) (hg : k.GetDenom id = .ok denom)
    (ho : k.GetOwner (ext.AccAddressFromBech32 denom.Creator) denom.Id = .ok owner)
    (h : owner.IDCollections = []) :
    getRandomNFTFromOwnerAndCreator ext k r = some (AccAddress.nil, "", "", none, r1) := by
  simp [getRandomNFTFromOwnerAndCreator, hd, hg, ho, h]

theorem getRandomNFTFromOwnerAndCreator_no_tokens (ext : Externals) (k : Keeper)
    (r r1 : Rand) (id : String) (denom : Denom) (owner : Owner) (coll : IDCollection)
    (hd : getRandomDenom ext k r = some (id, r1)) (hg : k.GetDenom id = .ok denom)
    (ho : k.GetOwner (ext.AccAddressFromBech32 denom.Creator) denom.Id = .ok owner)
    (hc : owner.IDCollections[r1.draw owner.IDCollections.length]? = some coll)
    (h : coll.TokenIds = []) :
    getRandomNFTFromOwnerAndCreator ext k r
      = some (AccAddress.nil, "", "", none, r1.next) := by
  have hm := length_ne_zero_of_getElem? hc
  simp [getRandomNFTFromOwnerAndCreator, hd, hg, ho, hm, r1.Intn_of_ne_zero hm, hc, h]

theorem getRandomNFTFromOwnerAndCreator_token (ext : Externals) (k : Keeper)
    (r r1 : Rand) (id : String) (denom : Denom) (owner : Owner) (coll : IDCollection)
    (tok : String)
    (hd : getRandomDenom ext k r = some (id, r1)) (hg : k.GetDenom id = .ok denom)
    (ho : k.GetOwner (ext.AccAddressFromBech32 denom.Creator) denom.Id = .ok owner)
    (hc : owner.IDCollections[r1.draw owner.IDCollections.length]? = some coll)
    (ht : coll.TokenIds[r1.next.draw coll.TokenIds.length]? = some tok) :
    getRandomNFTFromOwnerAndCreator ext k r
      = some (ext.AccAddressFromBech32 owner.Address, coll.DenomId, tok, none,
          r1.next.next) := by
  have hm := length_ne_zero_of_getElem? hc
  have hl := length_ne_zero_of_getElem? ht
  simp [getRandomNFTFromOwnerAndCreator, hd, hg, ho, hm, r1.Intn_of_ne_zero hm, hc, hl,
    r1.next.Intn_of_ne_zero hl, ht]

/-! ## Entity sampler: the claims -/

/-- C2. `getRandomNFTFromOwner` always returns, and whenever the address it returns is
non-empty the returned triple is (address of `owners[i]`, `DenomId` of collection `j` of that
owner, token `k` of that collection), where `i`, `j`, `k` are the first, second and third
draw of the random source, bounded by the number of owners, of collections of owner `i` and
of tokens of collection `j`; three draws are consumed, and the returned owner holds the
returned token in the returned denomination. -/
theorem getRandomNFTFromOwner_triple (ext : Externals) (k : Keeper) (r : Rand) :
    ∃ address denomID tokenID r',
      getRandomNFTFromOwner ext k r = some (address, denomID, tokenID, r') ∧
      (address.Empty = false →
        ∃ owner coll,
          k.GetOwners.1[r.draw k.GetOwners.1.length]? = some owner ∧
          owner.IDCollections[r.next.draw owner.IDCollections.length]? = some coll ∧
          coll.TokenIds[r.next.next.draw coll.TokenIds.length]? = some tokenID ∧
          address = ext.AccAddressFromBech32 owner.Address ∧
          denomID = coll.DenomId ∧
          r' = r.next.next.next ∧
          owner ∈ k.GetOwners.1 ∧ coll ∈ owner.IDCollections ∧ tokenID ∈ coll.TokenIds) := by
  by_cases h0 : k.GetOwners.1 = []
  · refine ⟨_, _, _, _, getRandomNFTFromOwner_no_owners ext k r h0, ?_⟩
    intro hne
    simp [AccAddress.Empty, AccAddress.nil] at hne
  obtain ⟨owner, ho, hom⟩ :=
    getElem?_draw r k.GetOwners.1 (by simpa [List.length_eq_zero] using h0)
  by_cases h1 : owner.IDCollections = []
  · refine ⟨_, _, _, _, getRandomNFTFromOwner_no_collections ext k r owner ho h1, ?_⟩
    intro hne
    simp [AccAddress.Empty, AccAddress.nil] at hne
  obtain ⟨coll, hc, hcm⟩ :=
    getElem?_draw r.next owner.IDCollections (by simpa [List.length_eq_zero] using h1)
  by_cases h2 : coll.TokenIds = []
  · refine ⟨_, _, _, _, getRandomNFTFromOwner_no_tokens ext k r owner coll ho hc h2, ?_⟩
    intro hne
    simp [AccAddress.Empty, AccAddress.nil] at hne
  obtain ⟨tok, ht, htm⟩ :=
    getElem?_draw r.next.next coll.TokenIds (by simpa [List.length_eq_zero] using h2)
  exact ⟨_, _, _, _, getRandomNFTFromOwner_token ext k r owner coll tok ho hc ht,
    fun _ => ⟨owner, coll, ho, hc, ht, rfl, rfl, rfl, hom, hcm, htm⟩⟩

/-- C2 at scenario 1 (the only owner is A, holding cat1 in kitties): the sampler returns
A with kitties and cat1 after three draws, and the record of A holds cat1 in kitties. -/
theorem getRandomNFTFromOwner_triple_witness :
    getRandomNFTFromOwner scenarioExt ledgerKitties (tapeRand [])
      = some (⟨[65]⟩, "kitties", "cat1", (tapeRand []).next.next.next) ∧
    AccAddress.Empty ⟨[65]⟩ = false ∧
    ∃ owner coll,
      ledgerKitties.GetOwners.1[(tapeRand []).draw ledgerKitties.GetOwners.1.length]?
        = some owner ∧
      owner.IDCollections[(tapeRand []).next.draw owner.IDCollections.length]?
        = some coll ∧
      coll.TokenIds[(tapeRand []).next.next.draw coll.TokenIds.length]? = some "cat1" ∧
      (⟨[65]⟩ : AccAddress) = scenarioExt.AccAddressFromBech32 owner.Address ∧
      "kitties" = coll.DenomId ∧
      (tapeRand []).next.next.next = (tapeRand []).next.next.next ∧
      owner ∈ ledgerKitties.GetOwners.1 ∧ coll ∈ owner.IDCollections ∧
      "cat1" ∈ coll.TokenIds := by
  obtain ⟨a, d, t, r', h, himp⟩ :=
    getRandomNFTFromOwner_triple scenarioExt ledgerKitties (tapeRand [])
  have hval : getRandomNFTFromOwner scenarioExt ledgerKitties (tapeRand [])
      = some (⟨[65]⟩, "kitties", "cat1", (tapeRand []).next.next.next) := rfl
  rw [hval] at h
  simp only [Option.some.injEq, Prod.mk.injEq] at h
  obtain ⟨rfl, rfl, rfl, rfl⟩ := h
  exact ⟨hval, rfl, himp rfl⟩

/-- C3. `getRandomNFTFromOwner` returns the empty target (nil address, empty denomination
id, empty token id) without panicking when the ledger has zero owners, when the chosen owner
has zero collections, and when the chosen collection has zero tokens; with zero owners the
random source is returned as it was received (no draw is consumed). -/
theorem getRandomNFTFromOwner_empty_target (ext : Externals) (k : Keeper) (r : Rand) :
    (k.GetOwners.1 = [] →
      getRandomNFTFromOwner ext k r = some (AccAddress.nil, "", "", r)) ∧
    (∀ owner, k.GetOwners.1[r.draw k.GetOwners.1.length]? = some owner →
      owner.IDCollections = [] →
      getRandomNFTFromOwner ext k r = some (AccAddress.nil, "", "", r.next)) ∧
    (∀ owner coll, k.GetOwners.1[r.draw k.GetOwners.1.length]? = some owner →
      owner.IDCollections[r.next.draw owner.IDCollections.length]? = some coll →
      coll.TokenIds = [] →
      getRandomNFTFromOwner ext k r = some (AccAddress.nil, "", "", r.next.next)) ∧
    AccAddress.nil.Empty = true :=
  ⟨getRandomNFTFromOwner_no_owners ext k r,
   fun owner ho h => getRandomNFTFromOwner_no_collections ext k r owner ho h,
   fun owner coll ho hc h => getRandomNFTFromOwner_no_tokens ext k r owner coll ho hc h,
   rfl⟩

/-- C3 at three ledgers: no owner (the source is returned untouched); one owner without
collections (one draw); one owner whose chosen collection is empty (two draws). -/
theorem getRandomNFTFromOwner_empty_target_witness :
    getRandomNFTFromOwner scenarioExt ledgerEmpty (tapeRand [5])
      = some (AccAddress.nil, "", "", tapeRand [5]) ∧
    getRandomNFTFromOwner scenarioExt ledgerOwnerWithoutCollections (tapeRand [5])
      = some (AccAddress.nil, "", "", (tapeRand [5]).next) ∧
    getRandomNFTFromOwner scenarioExt ledgerWithEmptyCollection (tapeRand [3, 4])
      = some (AccAddress.nil, "", "", (tapeRand [3, 4]).next.next) :=
  ⟨(getRandomNFTFromOwner_empty_target scenarioExt ledgerEmpty (tapeRand [5])).1 rfl,
   (getRandomNFTFromOwner_empty_target scenarioExt ledgerOwnerWithoutCollections
      (tapeRand [5])).2.1 ⟨"A", []⟩ rfl rfl,
   (getRandomNFTFromOwner_empty_target scenarioExt ledgerWithEmptyCollection
      (tapeRand [3, 4])).2.2.1 recordWithEmptyCollection ⟨"doggos", []⟩ rfl rfl rfl⟩

/-- C4. `getRandomNFTFromOwnerAndCreator` always returns. It returns an error exactly when
the `GetDenom` lookup of the sampled denomination fails or the `GetOwner` lookup of its
creator in that denomination fails, and the error is the one of that lookup. When both
lookups succeed and the Owner Record holds no collection, or the chosen collection holds no
token, it returns the empty target with no error. -/
theorem getRandomNFTFromOwnerAndCreator_error_iff (ext : Externals) (k : Keeper) (r : Rand) :
    ∃ id, getRandomDenom ext k r = some (id, r.next) ∧
    ∃ address denomID tokenID err r',
      getRandomNFTFromOwnerAndCreator ext k r
        = some (address, denomID, tokenID, err, r') ∧
      (∀ e, err = some e ↔
        (k.GetDenom id = .error e ∨
          ∃ denom, k.GetDenom id = .ok denom ∧
            k.GetOwner (ext.AccAddressFromBech32 denom.Creator) denom.Id = .error e)) ∧
      (∀ denom owner, k.GetDenom id = .ok denom →
        k.GetOwner (ext.AccAddressFromBech32 denom.Creator) denom.Id = .ok owner →
        (owner.IDCollections = [] ∨
          ∃ coll, owner.IDCollections[r.next.draw owner.IDCollections.length]? = some coll ∧
            coll.TokenIds = []) →
        address = AccAddress.nil ∧ denomID = "" ∧ tokenID = "" ∧ err = none) := by
  refine ⟨_, getRandomDenom_eq ext k r, ?_⟩
  have hd := getRandomDenom_eq ext k r
  generalize (if r.draw 2 = 0 then ext.kitties else ext.doggos) = id at hd ⊢
  cases hg : k.GetDenom id with
  | error e0 =>
    refine ⟨_, _, _, _, _,
      getRandomNFTFromOwnerAndCreator_denom_error ext k r _ id e0 hd hg, ?_, ?_⟩
    · intro e
      simp
    · intro denom owner h
      simp at h
  | ok denom =>
    cases ho : k.GetOwner (ext.AccAddressFromBech32 denom.Creator) denom.Id with
    | error e0 =>
      refine ⟨_, _, _, _, _,
        getRandomNFTFromOwnerAndCreator_owner_error ext k r _ id e0 denom hd hg ho, ?_, ?_⟩
      · intro e
        constructor
        · intro h
          simp only [Option.some.injEq] at h
          exact Or.inr ⟨denom, rfl, by rw [ho, h]⟩
        · rintro (h | ⟨d, h1, h2⟩)
          · simp at h
          · simp only [Except.ok.injEq] at h1
            subst h1
            rw [ho] at h2
            simp only [Except.error.injEq] at h2
            rw [h2]
      · intro d owner h1 h2
        simp only [Except.ok.injEq] at h1
        subst h1
        rw [ho] at h2
        simp at h2
    | ok owner =>
      have key : ∀ a dd t r', getRandomNFTFromOwnerAndCreator ext k r
            = some (a, dd, t, none, r') →
          ∀ e, (none : Option String) = some e ↔
            (Except.ok denom = (Except.error e : Except String Denom) ∨
              ∃ d, Except.ok denom = (Except.ok d : Except String Denom) ∧
                k.GetOwner (ext.AccAddressFromBech32 d.Creator) d.Id = .error e) := by
        intro _ _ _ _ _ e
        constructor
        · intro h
          simp at h
        · rintro (h | ⟨d, h1, h2⟩)
          · simp at h
          · simp only [Except.ok.injEq] at h1
            subst h1
            rw [ho] at h2
            simp at h2
      by_cases h1 : owner.IDCollections = []
      · have hres := getRandomNFTFromOwnerAndCreator_no_collections ext k r _ id denom owner
          hd hg ho h1
        exact ⟨_, _, _, _, _, hres, key _ _ _ _ hres, fun _ _ _ _ _ => ⟨rfl, rfl, rfl, rfl⟩⟩
      obtain ⟨coll, hc, -⟩ :=
        getElem?_draw r.next owner.IDCollections (by simpa [List.length_eq_zero] using h1)
      by_cases h2 : coll.TokenIds = []
      · have hres := getRandomNFTFromOwnerAndCreator_no_tokens ext k r _ id denom owner coll
          hd hg ho hc h2
        exact ⟨_, _, _, _, _, hres, key _ _ _ _ hres, fun _ _ _ _ _ => ⟨rfl, rfl, rfl, rfl⟩⟩
      obtain ⟨tok, ht, -⟩ :=
        getElem?_draw r.next.next coll.TokenIds (by simpa [List.length_eq_zero] using h2)
      have hres := getRandomNFTFromOwnerAndCreator_token ext k r _ id denom owner coll tok
        hd hg ho hc ht
      refine ⟨_, _, _, _, _, hres, key _ _ _ _ hres, ?_⟩
      intro d o hd1 ho1 hcase
      simp only [Except.ok.injEq] at hd1
      subst hd1
      rw [ho] at ho1
      simp only [Except.ok.injEq] at ho1
      subst ho1
      rcases hcase with h | ⟨c, hc1, hc2⟩
      · exact absurd h h1
      · rw [hc] at hc1
        simp only [Option.some.injEq] at hc1
        subst hc1
        exact absurd hc2 h2

/-- C4 on the ledger with nothing in it: the denomination lookup fails with "denom not
found" and the sampler returns exactly that error with the empty target. -/
theorem getRandomNFTFromOwnerAndCreator_error_iff_witness :
    getRandomNFTFromOwnerAndCreator scenarioExt ledgerEmpty (tapeRand [])
      = some (AccAddress.nil, "", "", some "denom not found", (tapeRand []).next) ∧
    (ledgerEmpty.GetDenom "kitties" = .error "denom not found" ∨
      ∃ denom, ledgerEmpty.GetDenom "kitties" = .ok denom ∧
        ledgerEmpty.GetOwner (scenarioExt.AccAddressFromBech32 denom.Creator) denom.Id
          = .error "denom not found") := by
  obtain ⟨id, hid, a, d, t, err, r', h, hiff, -⟩ :=
    getRandomNFTFromOwnerAndCreator_error_iff scenarioExt ledgerEmpty (tapeRand [])
  have hid' : getRandomDenom scenarioExt ledgerEmpty (tapeRand [])
      = some ("kitties", (tapeRand []).next) := rfl
  rw [hid'] at hid
  simp only [Option.some.injEq, Prod.mk.injEq, and_true] at hid
  subst hid
  have hval : getRandomNFTFromOwnerAndCreator scenarioExt ledgerEmpty (tapeRand [])
      = some (AccAddress.nil, "", "", some "denom not found", (tapeRand []).next) := rfl
  rw [hval] at h
  simp only [Option.some.injEq, Prod.mk.injEq] at h
  obtain ⟨-, -, -, herr, -⟩ := h
  exact ⟨hval, (hiff "denom not found").mp herr.symm⟩

/-! ## Operation builders: the request a step constructs -/

theorem SimulateMsgTransferNFT_built (ext : Externals) (k : Keeper)
    (ak : AccountKeeper) (bk : BankKeeper) (r : Rand) (app : BaseApp) (accs : List Account)
    (chainID : String) (res : StepResult) (msg : Msg)
    (h : SimulateMsgTransferNFT ext k ak bk r app accs chainID = some res)
    (hb : res.built = some msg) :
    ∃ a d t r1 acc idx r2, getRandomNFTFromOwner ext k r = some (a, d, t, r1) ∧
      RandomAcc r1 accs = some (acc, idx, r2) ∧
      msg = .NewMsgTransferNFT t d (ext.AccAddressString a)
        (ext.AccAddressString acc.Address) := by
  unfold SimulateMsgTransferNFT at h
  split at h
  · simp at h
  · rename_i a d t r1 hs
    simp only at h
    split at h
    · simp only [Option.some.injEq] at h; subst h; simp at hb
    · split at h
      · simp at h
      · rename_i acc idx r2 hr
        refine ⟨a, d, t, r1, acc, idx, r2, hs, hr, ?_⟩
        repeat' split at h
        all_goals first
          | (simp at h; done)
          | (simp only [Option.some.injEq] at h; subst h; simp at hb; done)
          | (simp only [Option.some.injEq] at h; subst h; simp at hb; exact hb.symm)

theorem SimulateMsgEditNFT_built (ext : Externals) (k : Keeper)
    (ak : AccountKeeper) (bk : BankKeeper) (r : Rand) (app : BaseApp) (accs : List Account)
    (chainID : String) (res : StepResult) (msg : Msg)
    (h : SimulateMsgEditNFT ext k ak bk r app accs chainID = some res)
    (hb : res.built = some msg) :
    ∃ a d t r1, getRandomNFTFromOwnerAndCreator ext k r = some (a, d, t, none, r1) ∧
      msg = .NewMsgEditNFT t d "" (ext.RandStringOfLength r1 45).1
        (ext.RandStringOfLength (ext.RandStringOfLength r1 45).2 10).1
        (ext.AccAddressString a) := by
  unfold SimulateMsgEditNFT at h
  split at h
  · simp at h
  · simp only [Option.some.injEq] at h; subst h; simp at hb
  · rename_i a d t r1 hs
    refine ⟨a, d, t, r1, hs, ?_⟩
    simp only at h
    repeat' split at h
    all_goals first
      | (simp at h; done)
      | (simp only [Option.some.injEq] at h; subst h; simp at hb; done)
      | (simp only [Option.some.injEq] at h; subst h; simp at hb; exact hb.symm)

theorem SimulateMsgBurnNFT_built (ext : Externals) (k : Keeper)
    (ak : AccountKeeper) (bk : BankKeeper) (r : Rand) (app : BaseApp) (accs : List Account)
    (chainID : String) (res : StepResult) (msg : Msg)
    (h : SimulateMsgBurnNFT ext k ak bk r app accs chainID = some res)
    (hb : res.built = some msg) :
    ∃ a d t r1, getRandomNFTFromOwnerAndCreator ext k r = some (a, d, t, none, r1) ∧
      msg = .NewMsgBurnNFT (ext.AccAddressString a) t d := by
  unfold SimulateMsgBurnNFT at h
  split at h
  · simp at h
  · simp only [Option.some.injEq] at h; subst h; simp at hb
  · rename_i a d t r1 hs
    refine ⟨a, d, t, r1, hs, ?_⟩
    simp only at h
    repeat' split at h
    all_goals first
      | (simp at h; done)
      | (simp only [Option.some.injEq] at h; subst h; simp at hb; done)
      | (simp only [Option.some.injEq] at h; subst h; simp at hb; exact hb.symm)

theorem SimulateMsgMintNFT_built (ext : Externals) (k : Keeper)
    (ak : AccountKeeper) (bk : BankKeeper) (r : Rand) (app : BaseApp) (accs : List Account)
    (chainID : String) (res : StepResult) (msg : Msg)
    (h : SimulateMsgMintNFT ext k ak bk r app accs chainID = some res)
    (hb : res.built = some msg) :
    ∃ id r1 denom acc idx r2, getRandomDenom ext k r = some (id, r1) ∧
      k.GetDenom id = .ok denom ∧ RandomAcc r1 accs = some (acc, idx, r2) ∧
      msg.Sender = ext.AccAddressString (ext.AccAddressFromBech32 denom.Creator) ∧
      msg.DenomId = denom.Id ∧
      msg.Recipient = some (ext.AccAddressString acc.Address) := by
  unfold SimulateMsgMintNFT at h
  split at h
  · simp at h
  · rename_i id r1 hs
    split at h
    · simp only [Option.some.injEq] at h; subst h; simp at hb
    · rename_i denom hg
      simp only at h
      split at h
      · simp at h
      · rename_i acc idx r2 hr
        refine ⟨id, r1, denom, acc, idx, r2, hs, hg, hr, ?_⟩
        repeat' split at h
        all_goals first
          | (simp at h; done)
          | (simp only [Option.some.injEq] at h; subst h; simp at hb; done)
          | (simp only [Option.some.injEq] at h; subst h; simp at hb; subst hb;
             simp [Msg.Sender, Msg.DenomId, Msg.Recipient])

/-- An outcome that carries a request comes from full success only: the request is the
one the step built, accepted is true, the reason is empty and no error is returned. -/
theorem outcome_request_is_built (ext : Externals) (k : Keeper) (ak : AccountKeeper)
    (bk : BankKeeper) (r : Rand) (app : BaseApp) (accs : List Account) (chainID : String)
    (res : StepResult) (m : Msg) (ok : Bool) (c : String)
    (hop : res.opMsg = .NewOperationMsg m ok c)
    (h : SimulateMsgMintNFT ext k ak bk r app accs chainID = some res ∨
      SimulateMsgEditNFT ext k ak bk r app accs chainID = some res ∨
      SimulateMsgTransferNFT ext k ak bk r app accs chainID = some res ∨
      SimulateMsgBurnNFT ext k ak bk r app accs chainID = some res) :
    res.built = some m ∧ ok = true ∧ c = "" ∧ res.err = none := by
  rcases h with h | h | h | h
  · unfold SimulateMsgMintNFT at h
    simp only at h
    repeat' split at h
    all_goals first
      | (simp at h; done)
      | (simp only [Option.some.injEq] at h; subst h; simp at hop; done)
      | (simp only [Option.some.injEq] at h; subst h; simp at hop
         obtain ⟨rfl, rfl, rfl⟩ := hop; simp)
  · unfold SimulateMsgEditNFT at h
    simp only at h
    repeat' split at h
    all_goals first
      | (simp at h; done)
      | (simp only [Option.some.injEq] at h; subst h; simp at hop; done)
      | (simp only [Option.some.injEq] at h; subst h; simp at hop
         obtain ⟨rfl, rfl, rfl⟩ := hop; simp)
  · unfold SimulateMsgTransferNFT at h
    simp only at h
    repeat' split at h
    all_goals first
      | (simp at h; done)
      | (simp only [Option.some.injEq] at h; subst h; simp at hop; done)
      | (simp only [Option.some.injEq] at h; subst h; simp at hop
         obtain ⟨rfl, rfl, rfl⟩ := hop; simp)
  · unfold SimulateMsgBurnNFT at h
    simp only at h
    repeat' split at h
    all_goals first
      | (simp at h; done)
      | (simp only [Option.some.injEq] at h; subst h; simp at hop; done)
      | (simp only [Option.some.injEq] at h; subst h; simp at hop
         obtain ⟨rfl, rfl, rfl⟩ := hop; simp)

/-- C5. Whenever a builder constructs a request: the Mint request has as sender the
creator of the sampled denomination (the address read from the `Creator` of the denomination
that `GetDenom` returned) and as denomination that denomination; the Transfer, Edit and Burn
requests have as sender the owner address the sampler returned and carry the sampled
denomination and token id. The known account drawn at random is the recipient of the Mint
and Transfer requests and nothing else; Edit and Burn requests have no recipient. -/
theorem builders_sender (ext : Externals) (k : Keeper) (ak : AccountKeeper)
    (bk : BankKeeper) (r : Rand) (app : BaseApp) (accs : List Account) (chainID : String)
    (res : StepResult) (msg : Msg) (hb : res.built = some msg) :
    (SimulateMsgMintNFT ext k ak bk r app accs chainID = some res →
      ∃ id r1 denom acc idx r2, getRandomDenom ext k r = some (id, r1) ∧
        k.GetDenom id = .ok denom ∧
        RandomAcc r1 accs = some (acc, idx, r2) ∧ acc ∈ accs ∧
        msg.Sender = ext.AccAddressString (ext.AccAddressFromBech32 denom.Creator) ∧
        msg.DenomId = denom.Id ∧
        msg.Recipient = some (ext.AccAddressString acc.Address)) ∧
    (SimulateMsgTransferNFT ext k ak bk r app accs chainID = some res →
      ∃ a d t r1 acc idx r2, getRandomNFTFromOwner ext k r = some (a, d, t, r1) ∧
        RandomAcc r1 accs = some (acc, idx, r2) ∧ acc ∈ accs ∧
        msg.Sender = ext.AccAddressString a ∧ msg.DenomId = d ∧ msg.Id = t ∧
        msg.Recipient = some (ext.AccAddressString acc.Address)) ∧
    (SimulateMsgEditNFT ext k ak bk r app accs chainID = some res →
      ∃ a d t r1, getRandomNFTFromOwnerAndCreator ext k r = some (a, d, t, none, r1) ∧
        msg.Sender = ext.AccAddressString a ∧ msg.DenomId = d ∧ msg.Id = t ∧
        msg.Recipient = none) ∧
    (SimulateMsgBurnNFT ext k ak bk r app accs chainID = some res →
      ∃ a d t r1, getRandomNFTFromOwnerAndCreator ext k r = some (a, d, t, none, r1) ∧
        msg.Sender = ext.AccAddressString a ∧ msg.DenomId = d ∧ msg.Id = t ∧
        msg.Recipient = none) := by
  refine ⟨fun h => ?_, fun h => ?_, fun h => ?_, fun h => ?_⟩
  · obtain ⟨id, r1, denom, acc, idx, r2, hs, hg, hr, hm⟩ :=
      SimulateMsgMintNFT_built ext k ak bk r app accs chainID res msg h hb
    exact ⟨id, r1, denom, acc, idx, r2, hs, hg, hr, (RandomAcc_some hr).2.1, hm⟩
  · obtain ⟨a, d, t, r1, acc, idx, r2, hs, hr, hm⟩ :=
      SimulateMsgTransferNFT_built ext k ak bk r app accs chainID res msg h hb
    exact ⟨a, d, t, r1, acc, idx, r2, hs, hr, (RandomAcc_some hr).2.1,
      by simp [hm, Msg.Sender, Msg.DenomId, Msg.Id, Msg.Recipient]⟩
  · obtain ⟨a, d, t, r1, hs, hm⟩ :=
      SimulateMsgEditNFT_built ext k ak bk r app accs chainID res msg h hb
    exact ⟨a, d, t, r1, hs, by simp [hm, Msg.Sender, Msg.DenomId, Msg.Id, Msg.Recipient]⟩
  · obtain ⟨a, d, t, r1, hs, hm⟩ :=
      SimulateMsgBurnNFT_built ext k ak bk r app accs chainID res msg h hb
    exact ⟨a, d, t, r1, hs, by simp [hm, Msg.Sender, Msg.DenomId, Msg.Id, Msg.Recipient]⟩

/-- C5 at scenario 1 with known accounts A and B, the recipient draw landing on B: the
Transfer step builds the request (cat1, kitties, sender A, recipient B), and its sender is
the sampled owner. -/
theorem builders_sender_witness :
    ∃ res,
      SimulateMsgTransferNFT scenarioExt ledgerKitties scenarioAK scenarioBK
        (tapeRand [0, 0, 0, 1]) acceptingApp [accountA, accountB] "chain" = some res ∧
      res.built = some (.NewMsgTransferNFT "cat1" "kitties" "A" "B") ∧
      res.opMsg = .NewOperationMsg (.NewMsgTransferNFT "cat1" "kitties" "A" "B") true "" ∧
      ∃ a d t r1 acc idx r2,
        getRandomNFTFromOwner scenarioExt ledgerKitties (tapeRand [0, 0, 0, 1])
          = some (a, d, t, r1) ∧
        RandomAcc r1 [accountA, accountB] = some (acc, idx, r2) ∧
        acc ∈ [accountA, accountB] ∧
        Msg.Sender (.NewMsgTransferNFT "cat1" "kitties" "A" "B")
          = scenarioExt.AccAddressString a ∧
        Msg.DenomId (.NewMsgTransferNFT "cat1" "kitties" "A" "B") = d ∧
        Msg.Id (.NewMsgTransferNFT "cat1" "kitties" "A" "B") = t ∧
        Msg.Recipient (.NewMsgTransferNFT "cat1" "kitties" "A" "B")
          = some (scenarioExt.AccAddressString acc.Address) :=
  ⟨_, rfl, rfl, rfl,
    (builders_sender scenarioExt ledgerKitties scenarioAK scenarioBK (tapeRand [0, 0, 0, 1])
      acceptingApp [accountA, accountB] "chain" _ _ rfl).2.1 rfl⟩

/-! ## Operation builders: steps without a target -/

/-- C7. When the sampler finds no owned token (it returns the empty address; in
particular when the ledger has zero owners) the Transfer step returns a failure outcome:
accepted is false, the operation kind is transfer, the reason is exactly "invalid account",
an error with that text is returned, no request is built and nothing is submitted. -/
theorem SimulateMsgTransferNFT_no_target (ext : Externals) (k : Keeper)
    (ak : AccountKeeper) (bk : BankKeeper) (r : Rand) (app : BaseApp) (accs : List Account)
    (chainID : String)
    (h : k.GetOwners.1 = [] ∨
      ∃ a d t r', getRandomNFTFromOwner ext k r = some (a, d, t, r') ∧ a.Empty = true) :
    ∃ res, SimulateMsgTransferNFT ext k ak bk r app accs chainID = some res ∧
      res.opMsg = .NoOpMsg ext.ModuleName EventTypeTransfer "invalid account" ∧
      res.opMsg.OK = false ∧ res.opMsg.Name = OperationKind.transfer ∧
      res.opMsg.Comment = "invalid account" ∧
      res.err = some "invalid account" ∧ res.built = none ∧ res.delivered = [] := by
  have h' : ∃ a d t r', getRandomNFTFromOwner ext k r = some (a, d, t, r') ∧
      a.Empty = true := by
    rcases h with h | h
    · exact ⟨_, _, _, _, getRandomNFTFromOwner_no_owners ext k r h, rfl⟩
    · exact h
  obtain ⟨a, d, t, r', hs, he⟩ := h'
  refine ⟨⟨.NoOpMsg ext.ModuleName EventTypeTransfer "invalid account",
    some "invalid account", none, [], r'⟩, ?_, rfl, rfl, rfl, rfl, rfl, rfl, rfl⟩
  simp [SimulateMsgTransferNFT, hs, he]

/-- C7 on the ledger with nothing in it. -/
theorem SimulateMsgTransferNFT_no_target_witness :
    ledgerEmpty.GetOwners.1 = [] ∧
    ∃ res, SimulateMsgTransferNFT scenarioExt ledgerEmpty scenarioAK scenarioBK
        (tapeRand [7]) acceptingApp [accountA, accountB] "chain" = some res ∧
      res.opMsg = .NoOpMsg "nft" EventTypeTransfer "invalid account" ∧
      res.opMsg.OK = false ∧ res.opMsg.Name = OperationKind.transfer ∧
      res.opMsg.Comment = "invalid account" ∧
      res.err = some "invalid account" ∧ res.built = none ∧ res.delivered = [] :=
  ⟨rfl, SimulateMsgTransferNFT_no_target scenarioExt ledgerEmpty scenarioAK scenarioBK
    (tapeRand [7]) acceptingApp [accountA, accountB] "chain" (Or.inl rfl)⟩

/-- C6, as the code has it. When the lookup of the sampled denomination succeeds and the
lookup of its creator's Owner Record succeeds with a record holding no collection (the
creator owns nothing, as on a ledger where nobody owns a token), the Edit step and the Burn
step each return the benign no-op outcome: accepted is false, the reason is exactly
"denom creator does not own any NFTs", no error is returned, no request is built and nothing
is submitted. -/
theorem edit_burn_benign_noop (ext : Externals) (k : Keeper) (ak : AccountKeeper)
    (bk : BankKeeper) (r r1 : Rand) (app : BaseApp) (accs : List Account) (chainID : String)
    (id : String) (denom : Denom) (owner : Owner)
    (hd : getRandomDenom ext k r = some (id, r1)) (hg : k.GetDenom id = .ok denom)
    (ho : k.GetOwner (ext.AccAddressFromBech32 denom.Creator) denom.Id = .ok owner)
    (hnone : owner.IDCollections = []) :
    (∃ res, SimulateMsgEditNFT ext k ak bk r app accs chainID = some res ∧
      res.opMsg.OK = false ∧ res.opMsg.Name = OperationKind.edit ∧
      res.opMsg.Comment = "denom creator does not own any NFTs" ∧
      res.err = none ∧ res.built = none ∧ res.delivered = []) ∧
    (∃ res, SimulateMsgBurnNFT ext k ak bk r app accs chainID = some res ∧
      res.opMsg.OK = false ∧ res.opMsg.Name = OperationKind.burn ∧
      res.opMsg.Comment = "denom creator does not own any NFTs" ∧
      res.err = none ∧ res.built = none ∧ res.delivered = []) := by
  have hs := getRandomNFTFromOwnerAndCreator_no_collections ext k r r1 id denom owner
    hd hg ho hnone
  constructor
  · refine ⟨⟨.NoOpMsg ext.ModuleName EventTypeEditNFT "denom creator does not own any NFTs",
      none, none, [], r1⟩, ?_, rfl, rfl, rfl, rfl, rfl, rfl⟩
    simp [SimulateMsgEditNFT, hs, AccAddress.Empty, AccAddress.nil]
  · refine ⟨⟨.NoOpMsg ext.ModuleName EventTypeBurnNFT "denom creator does not own any NFTs",
      none, none, [], r1⟩, ?_, rfl, rfl, rfl, rfl, rfl, rfl⟩
    simp [SimulateMsgBurnNFT, hs, AccAddress.Empty, AccAddress.nil]

/-- C6, as the code has it, on the ledger where kitties exists and nobody owns a token. -/
theorem edit_burn_benign_noop_witness :
    ledgerNoTokens.GetOwners.1 = [] ∧
    getRandomDenom scenarioExt ledgerNoTokens (tapeRand [])
      = some ("kitties", (tapeRand []).next) ∧
    ledgerNoTokens.GetDenom "kitties" = .ok ⟨"kitties", "A"⟩ ∧
    ledgerNoTokens.GetOwner (scenarioExt.AccAddressFromBech32 "A") "kitties"
      = .ok ⟨"A", []⟩ ∧
    (∃ res, SimulateMsgEditNFT scenarioExt ledgerNoTokens scenarioAK scenarioBK
        (tapeRand []) acceptingApp [accountA] "chain" = some res ∧
      res.opMsg.OK = false ∧ res.opMsg.Name = OperationKind.edit ∧
      res.opMsg.Comment = "denom creator does not own any NFTs" ∧
      res.err = none ∧ res.built = none ∧ res.delivered = []) ∧
    (∃ res, SimulateMsgBurnNFT scenarioExt ledgerNoTokens scenarioAK scenarioBK
        (tapeRand []) acceptingApp [accountA] "chain" = some res ∧
      res.opMsg.OK = false ∧ res.opMsg.Name = OperationKind.burn ∧
      res.opMsg.Comment = "denom creator does not own any NFTs" ∧
      res.err = none ∧ res.built = none ∧ res.delivered = []) :=
  ⟨rfl, rfl, rfl, rfl,
    edit_burn_benign_noop scenarioExt ledgerNoTokens scenarioAK scenarioBK (tapeRand [])
      (tapeRand []).next acceptingApp [accountA] "chain" "kitties" ⟨"kitties", "A"⟩
      ⟨"A", []⟩ rfl rfl rfl rfl⟩

/-- C6 as stated fails on the ledger with nothing in it: the ledger has no owners, yet the
Edit step and the Burn step fail with the error of the denomination lookup as reason and as
returned error, not with the benign no-op. -/
theorem edit_burn_empty_ledger_counterexample :
    ledgerEmpty.GetOwners.1 = [] ∧
    (SimulateMsgEditNFT scenarioExt ledgerEmpty scenarioAK scenarioBK (tapeRand [])
        acceptingApp [accountA] "chain").map
      (fun res => (res.opMsg.OK, res.opMsg.Comment, res.err, res.delivered))
      = some (false, "denom not found", some "denom not found", []) ∧
    (SimulateMsgBurnNFT scenarioExt ledgerEmpty scenarioAK scenarioBK (tapeRand [])
        acceptingApp [accountA] "chain").map
      (fun res => (res.opMsg.OK, res.opMsg.Comment, res.err, res.delivered))
      = some (false, "denom not found", some "denom not found", []) ∧
    "denom not found" ≠ "denom creator does not own any NFTs" ∧
    some "denom not found" ≠ (none : Option String) := by
  refine ⟨rfl, rfl, rfl, by decide, by decide⟩

/-- When one of the two lookups of the creator-constrained sampler fails with error `e`,
the Edit step and the Burn step fail with `e` as reason and as returned error, build no
request and submit nothing. -/
theorem edit_burn_lookup_error (ext : Externals) (k : Keeper) (ak : AccountKeeper)
    (bk : BankKeeper) (r r1 : Rand) (app : BaseApp) (accs : List Account) (chainID : String)
    (id e : String) (hd : getRandomDenom ext k r = some (id, r1))
    (h : k.GetDenom id = .error e ∨
      ∃ denom, k.GetDenom id = .ok denom ∧
        k.GetOwner (ext.AccAddressFromBech32 denom.Creator) denom.Id = .error e) :
    SimulateMsgEditNFT ext k ak bk r app accs chainID
      = some ⟨.NoOpMsg ext.ModuleName EventTypeEditNFT e, some e, none, [], r1⟩ ∧
    SimulateMsgBurnNFT ext k ak bk r app accs chainID
      = some ⟨.NoOpMsg ext.ModuleName EventTypeBurnNFT e, some e, none, [], r1⟩ := by
  have hs : getRandomNFTFromOwnerAndCreator ext k r
      = some (AccAddress.nil, "", "", some e, r1) := by
    rcases h with h | ⟨denom, hg, ho⟩
    · exact getRandomNFTFromOwnerAndCreator_denom_error ext k r r1 id e hd h
    · exact getRandomNFTFromOwnerAndCreator_owner_error ext k r r1 id e denom hd hg ho
  constructor
  · simp [SimulateMsgEditNFT, hs]
  · simp [SimulateMsgBurnNFT, hs]

/-! ## Creator-owned token -/

theorem getRandomNFTFromOwnerAndCreator_selected_token (ext : Externals) (k : Keeper)
    (r r1 : Rand) (id : String) (denom : Denom) (owner : Owner)
    (hd : getRandomDenom ext k r = some (id, r1)) (hg : k.GetDenom id = .ok denom)
    (ho : k.GetOwner (ext.AccAddressFromBech32 denom.Creator) denom.Id = .ok owner)
    (hne : owner.IDCollections ≠ [])
    (hsel : ∀ c, owner.IDCollections[r1.draw owner.IDCollections.length]? = some c →
      c.TokenIds ≠ []) :
    ∃ denomID tokenID r',
      getRandomNFTFromOwnerAndCreator ext k r
        = some (ext.AccAddressFromBech32 owner.Address, denomID, tokenID, none, r') ∧
      ∃ c ∈ owner.IDCollections, c.DenomId = denomID ∧ tokenID ∈ c.TokenIds := by
  have hlen : owner.IDCollections.length ≠ 0 := by
    simpa [List.length_eq_zero] using hne
  obtain ⟨coll, hc, hcm⟩ := getElem?_draw r1 owner.IDCollections hlen
  have htok : coll.TokenIds.length ≠ 0 := by
    simpa [List.length_eq_zero] using hsel coll hc
  obtain ⟨tok, ht, htm⟩ := getElem?_draw r1.next coll.TokenIds htok
  exact ⟨coll.DenomId, tok, r1.next.next,
    getRandomNFTFromOwnerAndCreator_token ext k r r1 id denom owner coll tok hd hg ho hc ht,
    coll, hcm, rfl, htm⟩

/-- C1. For every ledger snapshot and random source: let `getRandomDenom` pick a
denomination D whose `GetDenom` lookup succeeds with creator C, and let `GetOwner` for C in
D succeed with an Owner Record in which C holds at least one token of D. The Owner Record is
one of the data model: it is the record of C (its address reads as C) and every ID
Collection it holds has at least one token id. Then `getRandomNFTFromOwnerAndCreator`
returns no error and a target whose address is C and whose token id is among the `TokenIds`
of a collection of that record with the returned `DenomId`. -/
theorem getRandomNFTFromOwnerAndCreator_creator_token (ext : Externals) (k : Keeper)
    (r r1 : Rand) (id : String) (denom : Denom) (owner : Owner)
    (hd : getRandomDenom ext k r = some (id, r1)) (hg : k.GetDenom id = .ok denom)
    (ho : k.GetOwner (ext.AccAddressFromBech32 denom.Creator) denom.Id = .ok owner)
    (hrec : ext.AccAddressFromBech32 owner.Address = ext.AccAddressFromBech32 denom.Creator)
    (hinv : ∀ c ∈ owner.IDCollections, c.TokenIds ≠ [])
    (hhold : ∃ c ∈ owner.IDCollections, c.DenomId = denom.Id ∧ c.TokenIds ≠ []) :
    ∃ denomID tokenID r',
      getRandomNFTFromOwnerAndCreator ext k r
        = some (ext.AccAddressFromBech32 denom.Creator, denomID, tokenID, none, r') ∧
      ∃ c ∈ owner.IDCollections, c.DenomId = denomID ∧ tokenID ∈ c.TokenIds := by
  obtain ⟨c0, hc0, -, -⟩ := hhold
  have hne : owner.IDCollections ≠ [] := List.ne_nil_of_mem hc0
  rw [← hrec]
  exact getRandomNFTFromOwnerAndCreator_selected_token ext k r r1 id denom owner hd hg ho hne
    (fun c hc => hinv c (mem_of_getElem?_eq hc))

/-- C1 at scenario 1: creator A of kitties holds cat1, and the sampler returns A with
kitties and cat1. -/
theorem getRandomNFTFromOwnerAndCreator_creator_token_witness :
    getRandomDenom scenarioExt ledgerKitties (tapeRand [])
      = some ("kitties", (tapeRand []).next) ∧
    ledgerKitties.GetDenom "kitties" = .ok ⟨"kitties", "A"⟩ ∧
    ledgerKitties.GetOwner (scenarioExt.AccAddressFromBech32 "A") "kitties"
      = .ok recordOfA ∧
    getRandomNFTFromOwnerAndCreator scenarioExt ledgerKitties (tapeRand [])
      = some (⟨[65]⟩, "kitties", "cat1", none, (tapeRand []).next.next.next) ∧
    ∃ denomID tokenID r',
      getRandomNFTFromOwnerAndCreator scenarioExt ledgerKitties (tapeRand [])
        = some (scenarioExt.AccAddressFromBech32 "A", denomID, tokenID, none, r') ∧
      ∃ c ∈ recordOfA.IDCollections, c.DenomId = denomID ∧ tokenID ∈ c.TokenIds :=
  ⟨rfl, rfl, rfl, rfl,
    getRandomNFTFromOwnerAndCreator_creator_token scenarioExt ledgerKitties (tapeRand [])
      (tapeRand []).next "kitties" ⟨"kitties", "A"⟩ recordOfA rfl rfl rfl rfl
      (by decide)
      ⟨⟨"kitties", ["cat1"]⟩, by decide, rfl, by decide⟩⟩

/-! ## Weighted dispatcher -/

/-- C8. `WeightedOperations` returns exactly four (weight, builder) pairs, in the order
Mint, Edit, Transfer, Burn; the weight paired with a builder is the value configured under
the key of that same operation kind when there is one, and otherwise the default: 100 for
Mint, 50 for Edit, 50 for Transfer, 10 for Burn. The four keys are pairwise distinct, and the
result is the list itself: no entry is selected. -/
theorem WeightedOperations_table (appParams : AppParams) (ext : Externals) (k : Keeper)
    (ak : AccountKeeper) (bk : BankKeeper) :
    WeightedOperations appParams ext k ak bk
      = [ ⟨(appParams OpWeightMsgMintNFT).getD 100, SimulateMsgMintNFT ext k ak bk⟩,
          ⟨(appParams OpWeightMsgEditNFT).getD 50, SimulateMsgEditNFT ext k ak bk⟩,
          ⟨(appParams OpWeightMsgTransferNFT).getD 50, SimulateMsgTransferNFT ext k ak bk⟩,
          ⟨(appParams OpWeightMsgBurnNFT).getD 10, SimulateMsgBurnNFT ext k ak bk⟩ ] ∧
    [OpWeightMsgMintNFT, OpWeightMsgEditNFT, OpWeightMsgTransferNFT,
      OpWeightMsgBurnNFT].Nodup := by
  constructor
  · simp only [WeightedOperations, AppParams.GetOrGenerate, NewWeightedOperation]
    cases appParams OpWeightMsgMintNFT <;> cases appParams OpWeightMsgEditNFT <;>
      cases appParams OpWeightMsgTransferNFT <;> cases appParams OpWeightMsgBurnNFT <;> rfl
  · decide

/-! ## Operation builders: rejection by the application -/

theorem SimulateMsgMintNFT_rejected (ext : Externals) (k : Keeper) (ak : AccountKeeper)
    (bk : BankKeeper) (r : Rand) (app : BaseApp) (accs : List Account) (chainID : String)
    (res : StepResult) (tx : Tx) (e : String)
    (h : SimulateMsgMintNFT ext k ak bk r app accs chainID = some res)
    (hdel : res.delivered = [tx]) (hrej : app.Deliver tx = some e) :
    res.opMsg = .NoOpMsg ext.ModuleName EventTypeMintNFT e ∧ res.err = some e := by
  unfold SimulateMsgMintNFT at h
  simp only at h
  repeat' split at h
  all_goals first
    | (simp at h; done)
    | (simp only [Option.some.injEq] at h; subst h; simp at hdel; done)
    | (simp only [Option.some.injEq] at h; subst h; simp at hdel; subst hdel; simp_all)

theorem SimulateMsgEditNFT_rejected (ext : Externals) (k : Keeper) (ak : AccountKeeper)
    (bk : BankKeeper) (r : Rand) (app : BaseApp) (accs : List Account) (chainID : String)
    (res : StepResult) (tx : Tx) (e : String)
    (h : SimulateMsgEditNFT ext k ak bk r app accs chainID = some res)
    (hdel : res.delivered = [tx]) (hrej : app.Deliver tx = some e) :
    res.opMsg = .NoOpMsg ext.ModuleName EventTypeEditNFT e ∧ res.err = some e := by
  unfold SimulateMsgEditNFT at h
  simp only at h
  repeat' split at h
  all_goals first
    | (simp at h; done)
    | (simp only [Option.some.injEq] at h; subst h; simp at hdel; done)
    | (simp only [Option.some.injEq] at h; subst h; simp at hdel; subst hdel; simp_all)

theorem SimulateMsgTransferNFT_rejected (ext : Externals) (k : Keeper) (ak : AccountKeeper)
    (bk : BankKeeper) (r : Rand) (app : BaseApp) (accs : List Account) (chainID : String)
    (res : StepResult) (tx : Tx) (e : String)
    (h : SimulateMsgTransferNFT ext k ak bk r app accs chainID = some res)
    (hdel : res.delivered = [tx]) (hrej : app.Deliver tx = some e) :
    res.opMsg = .NoOpMsg ext.ModuleName EventTypeTransfer e ∧ res.err = some e := by
  unfold SimulateMsgTransferNFT at h
  simp only at h
  repeat' split at h
  all_goals first
    | (simp at h; done)
    | (simp only [Option.some.injEq] at h; subst h; simp at hdel; done)
    | (simp only [Option.some.injEq] at h; subst h; simp at hdel; subst hdel; simp_all)

theorem SimulateMsgBurnNFT_rejected (ext : Externals) (k : Keeper) (ak : AccountKeeper)
    (bk : BankKeeper) (r : Rand) (app : BaseApp) (accs : List Account) (chainID : String)
    (res : StepResult) (tx : Tx) (e : String)
    (h : SimulateMsgBurnNFT ext k ak bk r app accs chainID = some res)
    (hdel : res.delivered = [tx]) (hrej : app.Deliver tx = some e) :
    res.opMsg = .NoOpMsg ext.ModuleName EventTypeEditNFT e ∧ res.err = some e := by
  unfold SimulateMsgBurnNFT at h
  simp only at h
  repeat' split at h
  all_goals first
    | (simp at h; done)
    | (simp only [Option.some.injEq] at h; subst h; simp at hdel; done)
    | (simp only [Option.some.injEq] at h; subst h; simp at hdel; subst hdel; simp_all)

/-- C9 for three of the four builders. Whenever the Mint, Edit or Transfer step hands its
transaction to the application and the application rejects it with error `e`, the outcome
has accepted false, reason `e` and the operation kind of that builder, and `e` is the
returned error. -/
theorem rejection_kind_mint_edit_transfer (ext : Externals) (k : Keeper)
    (ak : AccountKeeper) (bk : BankKeeper) (r : Rand) (app : BaseApp) (accs : List Account)
    (chainID : String) (res : StepResult) (tx : Tx) (e : String)
    (hdel : res.delivered = [tx]) (hrej : app.Deliver tx = some e) :
    (SimulateMsgMintNFT ext k ak bk r app accs chainID = some res →
      res.opMsg.OK = false ∧ res.opMsg.Comment = e ∧
      res.opMsg.Name = OperationKind.mint ∧ res.err = some e) ∧
    (SimulateMsgEditNFT ext k ak bk r app accs chainID = some res →
      res.opMsg.OK = false ∧ res.opMsg.Comment = e ∧
      res.opMsg.Name = OperationKind.edit ∧ res.err = some e) ∧
    (SimulateMsgTransferNFT ext k ak bk r app accs chainID = some res →
      res.opMsg.OK = false ∧ res.opMsg.Comment = e ∧
      res.opMsg.Name = OperationKind.transfer ∧ res.err = some e) := by
  refine ⟨fun h => ?_, fun h => ?_, fun h => ?_⟩
  · obtain ⟨h1, h2⟩ :=
      SimulateMsgMintNFT_rejected ext k ak bk r app accs chainID res tx e h hdel hrej
    rw [h1]
    exact ⟨rfl, rfl, rfl, h2⟩
  · obtain ⟨h1, h2⟩ :=
      SimulateMsgEditNFT_rejected ext k ak bk r app accs chainID res tx e h hdel hrej
    rw [h1]
    exact ⟨rfl, rfl, rfl, h2⟩
  · obtain ⟨h1, h2⟩ :=
      SimulateMsgTransferNFT_rejected ext k ak bk r app accs chainID res tx e h hdel hrej
    rw [h1]
    exact ⟨rfl, rfl, rfl, h2⟩

/-- C9 for the Burn builder, as the code has it: whenever the Burn step hands its
transaction to the application and the application rejects it with error `e`, the outcome
has accepted false and reason `e`, but its operation kind is edit, not burn. -/
theorem rejection_kind_burn (ext : Externals) (k : Keeper)
    (ak : AccountKeeper) (bk : BankKeeper) (r : Rand) (app : BaseApp) (accs : List Account)
    (chainID : String) (res : StepResult) (tx : Tx) (e : String)
    (h : SimulateMsgBurnNFT ext k ak bk r app accs chainID = some res)
    (hdel : res.delivered = [tx]) (hrej : app.Deliver tx = some e) :
    res.opMsg.OK = false ∧ res.opMsg.Comment = e ∧
      res.opMsg.Name = OperationKind.edit ∧ res.opMsg.Name ≠ OperationKind.burn ∧
      res.err = some e := by
  obtain ⟨h1, h2⟩ :=
    SimulateMsgBurnNFT_rejected ext k ak bk r app accs chainID res tx e h hdel hrej
  rw [h1]
  exact ⟨rfl, rfl, rfl, by simp [OperationMsg.Name, EventTypeEditNFT], h2⟩

/-- C9 at a failing input: scenario 1 (A created kitties and holds cat1), A a known
account, an application that rejects with "rejected". The Burn step builds the burn request
of A for cat1, submits it, and reports the rejection under the operation kind edit. -/
theorem SimulateMsgBurnNFT_rejection_reported_as_edit :
    (SimulateMsgBurnNFT scenarioExt ledgerKitties scenarioAK scenarioBK (tapeRand [])
        rejectingApp [accountA] "chain").map
      (fun res => (res.opMsg, res.err, res.built, res.delivered))
      = some (.NoOpMsg "nft" EventTypeEditNFT "rejected", some "rejected",
          some (.NewMsgBurnNFT "A" "cat1" "kitties"), [⟨[1]⟩]) ∧
    rejectingApp.Deliver ⟨[1]⟩ = some "rejected" ∧
    (OperationMsg.NoOpMsg "nft" EventTypeEditNFT "rejected").Name = OperationKind.edit ∧
    OperationKind.edit ≠ OperationKind.burn := by
  refine ⟨rfl, rfl, rfl, by decide⟩

/-! ## Operation builders: sender without a known account -/

theorem FindAccount_eq_none {accs : List Account} {a : AccAddress}
    (h : ∀ acc ∈ accs, acc.Address ≠ a) : FindAccount accs a = none := by
  simp only [FindAccount, List.find?_eq_none]
  intro acc hacc
  simpa using h acc hacc

/-- C10, as the code has it. Let the resolved sender have no entry among the known
accounts. The Transfer step draws the recipient, which needs a non-empty list of known
accounts, and then looks the sender up: it fails with "account <sender> not found" as reason
and as returned error, and submits nothing. The Mint, Edit and Burn steps read the sender's
on-ledger account and randomise the fee before they look the sender up (Mint draws the
recipient first): when that account exists and fee randomisation succeeds they fail with the
same "account <sender> not found" reason and error, submitting nothing; when that account
exists and fee randomisation fails with error `e` they fail with `e` as reason and as
returned error, submitting nothing. -/
theorem account_not_found (ext : Externals) (k : Keeper) (ak : AccountKeeper)
    (bk : BankKeeper) (r : Rand) (app : BaseApp) (accs : List Account) (chainID : String) :
    (∀ a d t r1, getRandomNFTFromOwner ext k r = some (a, d, t, r1) → a.Empty = false →
      accs ≠ [] → (∀ acc ∈ accs, acc.Address ≠ a) →
      ∃ res, SimulateMsgTransferNFT ext k ak bk r app accs chainID = some res ∧
        res.opMsg.OK = false ∧ res.opMsg.Name = OperationKind.transfer ∧
        res.opMsg.Comment = accountNotFound (ext.AccAddressString a) ∧
        res.err = some (accountNotFound (ext.AccAddressString a)) ∧
        res.delivered = []) ∧
    (∀ id r1 denom account,
      getRandomDenom ext k r = some (id, r1) → k.GetDenom id = .ok denom →
      accs ≠ [] →
      (∀ acc ∈ accs, acc.Address ≠ ext.AccAddressFromBech32 denom.Creator) →
      ak.GetAccount (ext.AccAddressFromBech32 denom.Creator) = some account →
      (∀ fees rf,
        ext.RandomFees
            (ext.RandStringOfLength (ext.RandStringOfLength
              (ext.RandnNFTID r1.next ext.MinDenomLen ext.MaxDenomLen).2 45).2 10).2
            (bk.SpendableCoins account.GetAddress) = (.ok fees, rf) →
        ∃ res, SimulateMsgMintNFT ext k ak bk r app accs chainID = some res ∧
          res.opMsg.OK = false ∧ res.opMsg.Name = OperationKind.mint ∧
          res.opMsg.Comment = accountNotFound
            (ext.AccAddressString (ext.AccAddressFromBech32 denom.Creator)) ∧
          res.err = some (accountNotFound
            (ext.AccAddressString (ext.AccAddressFromBech32 denom.Creator))) ∧
          res.delivered = []) ∧
      (∀ e rf,
        ext.RandomFees
            (ext.RandStringOfLength (ext.RandStringOfLength
              (ext.RandnNFTID r1.next ext.MinDenomLen ext.MaxDenomLen).2 45).2 10).2
            (bk.SpendableCoins account.GetAddress) = (.error e, rf) →
        ∃ res, SimulateMsgMintNFT ext k ak bk r app accs chainID = some res ∧
          res.opMsg.OK = false ∧ res.opMsg.Name = OperationKind.mint ∧
          res.opMsg.Comment = e ∧ res.err = some e ∧ res.delivered = [])) ∧
    (∀ a d t r1 account,
      getRandomNFTFromOwnerAndCreator ext k r = some (a, d, t, none, r1) →
      a.Empty = false → (∀ acc ∈ accs, acc.Address ≠ a) →
      ak.GetAccount a = some account →
      (∀ fees rf,
        ext.RandomFees (ext.RandStringOfLength (ext.RandStringOfLength r1 45).2 10).2
            (bk.SpendableCoins account.GetAddress) = (.ok fees, rf) →
        ∃ res, SimulateMsgEditNFT ext k ak bk r app accs chainID = some res ∧
          res.opMsg.OK = false ∧ res.opMsg.Name = OperationKind.edit ∧
          res.opMsg.Comment = accountNotFound (ext.AccAddressString a) ∧
          res.err = some (accountNotFound (ext.AccAddressString a)) ∧
          res.delivered = []) ∧
      (∀ e rf,
        ext.RandomFees (ext.RandStringOfLength (ext.RandStringOfLength r1 45).2 10).2
            (bk.SpendableCoins account.GetAddress) = (.error e, rf) →
        ∃ res, SimulateMsgEditNFT ext k ak bk r app accs chainID = some res ∧
          res.opMsg.OK = false ∧ res.opMsg.Name = OperationKind.edit ∧
          res.opMsg.Comment = e ∧ res.err = some e ∧ res.delivered = [])) ∧
    (∀ a d t r1 account,
      getRandomNFTFromOwnerAndCreator ext k r = some (a, d, t, none, r1) →
      a.Empty = false → (∀ acc ∈ accs, acc.Address ≠ a) →
      ak.GetAccount a = some account →
      (∀ fees rf,
        ext.RandomFees r1 (bk.SpendableCoins account.GetAddress) = (.ok fees, rf) →
        ∃ res, SimulateMsgBurnNFT ext k ak bk r app accs chainID = some res ∧
          res.opMsg.OK = false ∧ res.opMsg.Name = OperationKind.burn ∧
          res.opMsg.Comment = accountNotFound (ext.AccAddressString a) ∧
          res.err = some (accountNotFound (ext.AccAddressString a)) ∧
          res.delivered = []) ∧
      (∀ e rf,
        ext.RandomFees r1 (bk.SpendableCoins account.GetAddress) = (.error e, rf) →
        ∃ res, SimulateMsgBurnNFT ext k ak bk r app accs chainID = some res ∧
          res.opMsg.OK = false ∧ res.opMsg.Name = OperationKind.burn ∧
          res.opMsg.Comment = e ∧ res.err = some e ∧ res.delivered = [])) := by
  refine ⟨?_, ?_, ?_, ?_⟩
  · intro a d t r1 hs hne hacs hno
    have hf := FindAccount_eq_none hno
    obtain ⟨acc0, hr, -⟩ := RandomAcc_of_ne_nil r1 accs hacs
    simp [SimulateMsgTransferNFT, hs, hne, hr, hf, OperationMsg.OK, OperationMsg.Name,
      OperationMsg.Comment, Msg.Sender, EventTypeTransfer]
  · intro id r1 denom account hd hg hacs hno hacc
    have hf := FindAccount_eq_none hno
    obtain ⟨acc0, hr, -⟩ := RandomAcc_of_ne_nil r1 accs hacs
    constructor
    · intro fees rf hfee
      simp [SimulateMsgMintNFT, hd, hg, hr, hacc, hfee, hf, OperationMsg.OK,
        OperationMsg.Name, OperationMsg.Comment, Msg.Sender, EventTypeMintNFT]
    · intro e rf hfee
      simp [SimulateMsgMintNFT, hd, hg, hr, hacc, hfee, OperationMsg.OK,
        OperationMsg.Name, OperationMsg.Comment, EventTypeMintNFT]
  · intro a d t r1 account hs hne hno hacc
    have hf := FindAccount_eq_none hno
    constructor
    · intro fees rf hfee
      simp [SimulateMsgEditNFT, hs, hne, hacc, hfee, hf, OperationMsg.OK,
        OperationMsg.Name, OperationMsg.Comment, EventTypeEditNFT]
    · intro e rf hfee
      simp [SimulateMsgEditNFT, hs, hne, hacc, hfee, OperationMsg.OK,
        OperationMsg.Name, OperationMsg.Comment, EventTypeEditNFT]
  · intro a d t r1 account hs hne hno hacc
    have hf := FindAccount_eq_none hno
    constructor
    · intro fees rf hfee
      simp [SimulateMsgBurnNFT, hs, hne, hacc, hfee, hf, OperationMsg.OK,
        OperationMsg.Name, OperationMsg.Comment, Msg.Sender, EventTypeBurnNFT]
    · intro e rf hfee
      simp [SimulateMsgBurnNFT, hs, hne, hacc, hfee, OperationMsg.OK,
        OperationMsg.Name, OperationMsg.Comment, EventTypeBurnNFT]

/-- C10, as the code has it, at scenario 1 when B is the only known account and the
sender is A: the Transfer step and the Burn step fail with "account A not found"; when fee
randomisation fails, the Mint step fails with the fee error. -/
theorem account_not_found_witness :
    (∀ acc ∈ [accountB], acc.Address ≠ (⟨[65]⟩ : AccAddress)) ∧
    (∃ res, SimulateMsgTransferNFT scenarioExt ledgerKitties scenarioAK scenarioBK
        (tapeRand []) acceptingApp [accountB] "chain" = some res ∧
      res.opMsg.OK = false ∧ res.opMsg.Name = OperationKind.transfer ∧
      res.opMsg.Comment = accountNotFound (scenarioExt.AccAddressString ⟨[65]⟩) ∧
      res.err = some (accountNotFound (scenarioExt.AccAddressString ⟨[65]⟩)) ∧
      res.delivered = []) ∧
    (∃ res, SimulateMsgBurnNFT scenarioExt ledgerKitties scenarioAK scenarioBK
        (tapeRand []) acceptingApp [accountB] "chain" = some res ∧
      res.opMsg.OK = false ∧ res.opMsg.Name = OperationKind.burn ∧
      res.opMsg.Comment = accountNotFound (scenarioExt.AccAddressString ⟨[65]⟩) ∧
      res.err = some (accountNotFound (scenarioExt.AccAddressString ⟨[65]⟩)) ∧
      res.delivered = []) ∧
    (∃ res, SimulateMsgMintNFT scenarioExtFeeError ledgerKitties scenarioAK scenarioBK
        (tapeRand []) acceptingApp [accountB] "chain" = some res ∧
      res.opMsg.OK = false ∧ res.opMsg.Name = OperationKind.mint ∧
      res.opMsg.Comment = "no coins found for random fees" ∧
      res.err = some "no coins found for random fees" ∧ res.delivered = []) ∧
    accountNotFound (scenarioExt.AccAddressString ⟨[65]⟩) = "account A not found" :=
  ⟨by decide,
   (account_not_found scenarioExt ledgerKitties scenarioAK scenarioBK (tapeRand [])
      acceptingApp [accountB] "chain").1 ⟨[65]⟩ "kitties" "cat1" _ rfl rfl (by decide)
      (by decide),
   ((account_not_found scenarioExt ledgerKitties scenarioAK scenarioBK (tapeRand [])
      acceptingApp [accountB] "chain").2.2.2 ⟨[65]⟩ "kitties" "cat1" _ ⟨⟨[65]⟩, 0, 0⟩
      rfl rfl (by decide) rfl).1 [] _ rfl,
   ((account_not_found scenarioExtFeeError ledgerKitties scenarioAK scenarioBK (tapeRand [])
      acceptingApp [accountB] "chain").2.1 "kitties" _ ⟨"kitties", "A"⟩ ⟨⟨[65]⟩, 0, 0⟩
      rfl rfl (by decide) (by decide) rfl).2 "no coins found for random fees" _ rfl,
   by decide⟩

/-- C10 as stated fails in three ways at scenario 1, where the sender A has no entry
among the known accounts. With B the only known account and a failing fee randomisation,
the Mint, Edit and Burn steps fail with the fee error as reason and as returned error, not
with "account A not found". With no known account at all, the Transfer step and the Mint
step panic at the recipient draw. With B the only known account and no on-ledger account
for A, the Mint, Edit and Burn steps panic when they read the account's address. -/
theorem account_not_found_counterexample :
    (∀ acc ∈ [accountB],
      acc.Address ≠ scenarioExt.AccAddressFromBech32 "A") ∧
    (∀ acc ∈ ([] : List Account),
      acc.Address ≠ scenarioExt.AccAddressFromBech32 "A") ∧
    getRandomDenom scenarioExt ledgerKitties (tapeRand [])
      = some ("kitties", (tapeRand []).next) ∧
    ledgerKitties.GetDenom "kitties" = .ok ⟨"kitties", "A"⟩ ∧
    getRandomNFTFromOwner scenarioExt ledgerKitties (tapeRand [])
      = some (scenarioExt.AccAddressFromBech32 "A", "kitties", "cat1",
          (tapeRand []).next.next.next) ∧
    getRandomNFTFromOwnerAndCreator scenarioExt ledgerKitties (tapeRand [])
      = some (scenarioExt.AccAddressFromBech32 "A", "kitties", "cat1", none,
          (tapeRand []).next.next.next) ∧
    (SimulateMsgMintNFT scenarioExtFeeError ledgerKitties scenarioAK scenarioBK
        (tapeRand []) acceptingApp [accountB] "chain").map
      (fun res => (res.opMsg.OK, res.opMsg.Comment, res.err, res.delivered))
      = some (false, "no coins found for random fees",
          some "no coins found for random fees", []) ∧
    (SimulateMsgEditNFT scenarioExtFeeError ledgerKitties scenarioAK scenarioBK
        (tapeRand []) acceptingApp [accountB] "chain").map
      (fun res => (res.opMsg.OK, res.opMsg.Comment, res.err, res.delivered))
      = some (false, "no coins found for random fees",
          some "no coins found for random fees", []) ∧
    (SimulateMsgBurnNFT scenarioExtFeeError ledgerKitties scenarioAK scenarioBK
        (tapeRand []) acceptingApp [accountB] "chain").map
      (fun res => (res.opMsg.OK, res.opMsg.Comment, res.err, res.delivered))
      = some (false, "no coins found for random fees",
          some "no coins found for random fees", []) ∧
    "no coins found for random fees"
      ≠ accountNotFound (scenarioExt.AccAddressString
          (scenarioExt.AccAddressFromBech32 "A")) ∧
    (SimulateMsgTransferNFT scenarioExt ledgerKitties scenarioAK scenarioBK
        (tapeRand []) acceptingApp [] "chain").isNone = true ∧
    (SimulateMsgMintNFT scenarioExt ledgerKitties scenarioAK scenarioBK
        (tapeRand []) acceptingApp [] "chain").isNone = true ∧
    (SimulateMsgMintNFT scenarioExt ledgerKitties scenarioAKMissing scenarioBK
        (tapeRand []) acceptingApp [accountB] "chain").isNone = true ∧
    (SimulateMsgEditNFT scenarioExt ledgerKitties scenarioAKMissing scenarioBK
        (tapeRand []) acceptingApp [accountB] "chain").isNone = true ∧
    (SimulateMsgBurnNFT scenarioExt ledgerKitties scenarioAKMissing scenarioBK
        (tapeRand []) acceptingApp [accountB] "chain").isNone = true := by
  refine ⟨by decide, by decide, rfl, rfl, rfl, rfl, rfl, rfl, rfl, by decide,
    rfl, rfl, rfl, rfl, rfl⟩

end NFTSimulation
